import Mathlib

/-!
Verification of the batch speech-synthesis orchestrator
(`speech_synth_engine/dataset/dataset_generator.py` and
`speech_synth_engine/dataset/directory_manager.py`) against its
natural-language specification.

The Python code is shallowly embedded: the on-disk state (ledger files and
audio files) becomes an explicit record `DMState`; synthesis backends become
function-valued fields of an environment record; fallible entry points return
`Except PyErr`.  Wall-clock time, `time.sleep`, logging and `tqdm` progress
bars have no observable effect on the values the specification talks about
and are not modelled.  Strings are modelled over the ASCII whitespace set
(the texts in question are handled bytewise identically by Python for these
characters).
-/

namespace SpeechSynth

/-- A single field of a ledger row.  The Python code serializes every field
to text in the TSV file; we keep numeric fields structured (`rat` for the
duration written with `f"{duration:.2f}"`) so that claims about their values
are about the values themselves rather than about decimal rendering. -/
inductive Field where
  | str (s : String)
  | rat (q : Rat)
deriving DecidableEq, Repr

/-- One tab-separated row of a ledger (`metadata.tsv`) file. -/
abbrev Row := List Field

/-- The mutable on-disk state owned by `DirectoryManager`: the ledger files
(path to list of rows, header included) and the audio files (path to byte
size).  Directory creation via `mkdir(parents=True, exist_ok=True)` always
succeeds in the pure model; the fallible variant used for the error-handling
claims is modelled separately below. -/
structure DMState where
  ledgers : List (String × List Row)
  wavs : List (String × Nat)
deriving DecidableEq, Repr

/-- The empty output tree. -/
def DMState.empty : DMState := { ledgers := [], wavs := [] }

/-- Association-list update used to model writing a ledger file. -/
def upsertLedger : List (String × List Row) → String → List Row → List (String × List Row)
  | [], p, rows => [(p, rows)]
  | (q, r) :: rest, p, rows =>
    if q = p then (p, rows) :: rest else (q, r) :: upsertLedger rest p rows

/-- Contents of a ledger file, `none` when the file does not exist. -/
def getLedger (st : DMState) (path : String) : Option (List Row) :=
  st.ledgers.lookup path

/-- `path / b` (POSIX joining, as `pathlib.Path` does for relative parts). -/
def pathJoin (a b : String) : String := a ++ "/" ++ b

/-- `f"{n:03d}"`: zero-padded to at least three digits. -/
def fmt3 (n : Nat) : String :=
  if n < 10 then "00" ++ toString n
  else if n < 100 then "0" ++ toString n
  else toString n

/-- Header of the synthesize-schema ledger
(`DirectoryManager.initialize_metadata_file`). -/
def synthesizeColumns : List String :=
  ["utt_id", "text_id", "text", "audio_path",
   "provider", "model", "voice", "tts_type",
   "sample_rate", "lang", "duration", "gen_date"]

/-- Header of the clone-schema ledger
(`DirectoryManager.initialize_metadata_file_clone`). -/
def cloneColumns : List String :=
  ["utt_id", "text_id", "text", "audio_path",
   "provider", "reference_audio", "tts_type",
   "sample_rate", "lang", "duration", "gen_date",
   "audio_url", "clone_id"]

/-- `DirectoryManager.initialize_metadata_file`: writes the header row only
when the file does not already exist. -/
def initialize_metadata_file (st : DMState) (metadata_file : String)
    (columns : List String) : Bool × DMState :=
  if (st.ledgers.lookup metadata_file).isSome then (true, st)
  else (true, { st with
    ledgers := upsertLedger st.ledgers metadata_file [columns.map Field.str] })

/-- `DirectoryManager.initialize_metadata_file_clone`. -/
def initialize_metadata_file_clone (st : DMState) (metadata_file : String) :
    Bool × DMState :=
  if (st.ledgers.lookup metadata_file).isSome then (true, st)
  else (true, { st with
    ledgers := upsertLedger st.ledgers metadata_file [cloneColumns.map Field.str] })

/-- Number of non-header lines the Python code computes before an append
(`sum(1 for _ in f) - 1` when the file exists, `0` otherwise). -/
def nonHeaderCount (st : DMState) (metadata_file : String) : Nat :=
  match st.ledgers.lookup metadata_file with
  | some rows => rows.length - 1
  | none => 0

/-- `open(metadata_file, 'a')` followed by one `writer.writerow`: appends the
row, creating the file (with no header) when it does not exist. -/
def appendRowToFile (st : DMState) (metadata_file : String) (row : Row) : DMState :=
  let newRows := ((st.ledgers.lookup metadata_file).getD []) ++ [row]
  { st with ledgers := upsertLedger st.ledgers metadata_file newRows }

/-- `DirectoryManager._estimate_duration`: `len(text) / 12` clamped to
`[0.5, 10.0]`. -/
def _estimate_duration (text : String) : Rat :=
  max ((1 : Rat) / 2) (min (10 : Rat) ((text.length : Rat) / 12))

/-- `DirectoryManager.add_metadata_entry` (synthesize schema), pure model.
`now` stands for `datetime.now().strftime("%Y-%m-%d %H:%M:%S")`. -/
def add_metadata_entry (now : String) (st : DMState) (metadata_file : String)
    (text : String) (audio_path : String) (provider model voice tts_type : String)
    (sample_rate : Nat) (duration : Option Rat) (text_id : Option String) :
    Bool × DMState :=
  let current_count := nonHeaderCount st metadata_file
  let utt_id := fmt3 (current_count + 1)
  let dur := duration.getD (_estimate_duration text)
  let entry : Row :=
    [Field.str utt_id, Field.str (text_id.getD ""), Field.str text,
     Field.str audio_path, Field.str provider, Field.str model,
     Field.str voice, Field.str tts_type, Field.str (toString sample_rate),
     Field.str "vi", Field.rat dur, Field.str now]
  (true, appendRowToFile st metadata_file entry)

/-- `DirectoryManager.add_metadata_entry_clone` (clone schema), pure model. -/
def add_metadata_entry_clone (now : String) (st : DMState) (metadata_file : String)
    (text : String) (audio_path : String) (provider reference_audio tts_type : String)
    (sample_rate : Nat) (duration : Option Rat) (text_id : Option String)
    (audio_url : Option String) (clone_id : Option String) : Bool × DMState :=
  let current_count := nonHeaderCount st metadata_file
  let utt_id := fmt3 (current_count + 1)
  let dur := duration.getD (_estimate_duration text)
  let entry : Row :=
    [Field.str utt_id, Field.str (text_id.getD ""), Field.str text,
     Field.str audio_path, Field.str provider, Field.str reference_audio,
     Field.str tts_type, Field.str (toString sample_rate), Field.str "vi",
     Field.rat dur, Field.str now, Field.str (audio_url.getD ""),
     Field.str (clone_id.getD "")]
  (true, appendRowToFile st metadata_file entry)

/-- `DirectoryManager.create_output_directory`: derives
`base/provider/model/voice/wav` and `base/provider/model/voice/metadata.tsv`,
creates the directories and initializes the ledger with the synthesize
header when absent.  Returns `(wav_dir, metadata_file, new state)`. -/
def create_output_directory (base : String) (st : DMState)
    (provider model voice : String) : String × String × DMState :=
  let voice_dir := pathJoin (pathJoin (pathJoin base provider) model) voice
  let wav_dir := pathJoin voice_dir "wav"
  let metadata_file := pathJoin voice_dir "metadata.tsv"
  let st1 := (initialize_metadata_file st metadata_file synthesizeColumns).2
  (wav_dir, metadata_file, st1)

/-- `DirectoryManager.create_provider_structure_clone`: same layout but the
ledger is initialized with the clone header.  (Present in the source; never
called by `DatasetGenerator`.) -/
def create_provider_structure_clone (base : String) (st : DMState)
    (provider model voice : String) : String × String × DMState :=
  let voice_dir := pathJoin (pathJoin (pathJoin base provider) model) voice
  let wav_dir := pathJoin voice_dir "wav"
  let metadata_file := pathJoin voice_dir "metadata.tsv"
  let st1 := (initialize_metadata_file_clone st metadata_file).2
  (wav_dir, metadata_file, st1)

/-! ### Filename sanitization (`DatasetGenerator._sanitize_filename`) -/

/-- The filesystem-hostile characters removed by `re.sub(r'[<>:"/\\|?*]', '', text)`. -/
def hostileChar (c : Char) : Bool :=
  c == '<' || c == '>' || c == ':' || c == '"' || c == '/' ||
  c == '\\' || c == '|' || c == '?' || c == '*'

/-- The ASCII whitespace characters matched by `\s` and stripped by `str.strip()`:
space, tab, newline, carriage return, vertical tab, form feed. -/
def pyWhitespace (c : Char) : Bool :=
  c == ' ' || c == '\t' || c == '\n' || c == '\r' ||
  c == Char.ofNat 11 || c == Char.ofNat 12

/-- `str.strip()` on a character list. -/
def pyStrip (l : List Char) : List Char :=
  ((l.dropWhile pyWhitespace).reverse.dropWhile pyWhitespace).reverse

/-- Fuel-indexed worker for `re.sub(r'\s+', '_', s)`: each whitespace run
becomes a single underscore.  The fuel (initially the list length) only
serves structural termination; every step consumes at least one character. -/
def collapseGo : Nat → List Char → List Char
  | 0, _ => []
  | _ + 1, [] => []
  | fuel + 1, c :: rest =>
    if pyWhitespace c then '_' :: collapseGo fuel (rest.dropWhile pyWhitespace)
    else c :: collapseGo fuel rest

/-- `re.sub(r'\s+', '_', s)`. -/
def collapseWhitespace (l : List Char) : List Char := collapseGo l.length l

/-- `DatasetGenerator._sanitize_filename`: strip the hostile characters,
collapse whitespace runs of the stripped result to `_`, truncate to 47
characters plus `"..."` when longer than 50. -/
def _sanitize_filename (text : String) : String :=
  let sanitized := text.data.filter (fun c => !(hostileChar c))
  let collapsed := collapseWhitespace (pyStrip sanitized)
  let s := String.mk collapsed
  if s.length > 50 then String.mk (collapsed.take 47) ++ "..." else s

/-- `not text.strip()`: the blank-item test of the batch loops. -/
def isBlank (s : String) : Bool := (pyStrip s.data).isEmpty

/-! ### The generator (`DatasetGenerator`) -/

/-- The dictionary a provider's `synthesize_with_metadata` returns, as far as
the generator consults it. -/
structure SynthMeta where
  success : Bool
  error : Option String
  estimated_duration : Rat
  file_size : Nat

/-- The dictionary a provider's `clone_with_metadata` returns, as far as the
generator consults it. -/
structure CloneMeta where
  success : Bool
  error : Option String
  estimated_duration : Rat
  file_size : Nat
  audio_url : String
  clone_id : Option String

/-- A registered synthesis backend, reduced to the capability surface the
generator uses.  A call returning `Except.error e` models the provider
method raising an exception with message `e`; on `success` the provider has
written the output file with `file_size` bytes. -/
structure Provider where
  sample_rate : Nat
  is_selenium : Bool
  synthMeta : String → String → Except String SynthMeta
  cloneMeta : String → String → Except String CloneMeta

/-- The ambient, per-run environment: the output base directory, the provider
registry, the wall clock rendered once per append, the files visible to
`Path.exists` outside the output tree (reference audio), and the process's
string hash (Python's `hash` is salted per process, hence ambient). -/
structure GenEnv where
  base_dir : String
  now : String
  providers : List (String × Provider)
  fs_files : List String
  hashString : String → Int

/-- One invocation of a synthesis capability, recorded for the claims that
say a call does or does not happen. -/
inductive CapCall where
  | synthCall (provider text voice path : String)
  | cloneCall (provider text reference path : String)
deriving DecidableEq, Repr

/-- `SynthesisResult` of `dataset_generator.py`. -/
structure SynthesisResult where
  success : Bool
  text : String
  provider : String
  model : String
  audio_path : String
  metadata_path : String
  duration : Rat
  error : Option String := none
  file_size : Nat := 0
  skipped_duplicate : Bool := false
  voice : Option String := none
deriving DecidableEq, Repr

/-- `CloneResult` of `dataset_generator.py`. -/
structure CloneResult where
  success : Bool
  text : String
  provider : String
  model : String
  audio_path : String
  metadata_path : String
  duration : Rat
  error : Option String := none
  file_size : Nat := 0
  skipped_duplicate : Bool := false
  reference_audio : Option String := none
  clone_id : Option String := none
deriving DecidableEq, Repr

/-- `Union[SynthesisResult, CloneResult]`, the element type of
`BatchGenerationSummary.results`. -/
inductive GenResult where
  | synth (r : SynthesisResult)
  | clone (r : CloneResult)
deriving DecidableEq, Repr

/-- `r.success` on either alternative. -/
def GenResult.success : GenResult → Bool
  | .synth r => r.success
  | .clone r => r.success

/-- `BatchGenerationSummary` (the wall-clock `total_duration` field carries
no specified content and is not modelled). -/
structure BatchGenerationSummary where
  total_texts : Nat
  successful_generations : Nat
  failed_generations : Nat
  errors : List String
  results : List GenResult
deriving DecidableEq, Repr

/-- Errors raised by the entry points. -/
inductive PyErr where
  | valueError (msg : String)
  | fileNotFoundError (msg : String)
deriving DecidableEq, Repr

/-- `path.exists()` for files under the output tree. -/
def wavExists (st : DMState) (path : String) : Bool := (st.wavs.lookup path).isSome

/-- `path.stat().st_size`. -/
def wavSize (st : DMState) (path : String) : Nat := (st.wavs.lookup path).getD 0

/-- The provider writing its output file. -/
def addWav (st : DMState) (path : String) (size : Nat) : DMState :=
  { st with wavs := st.wavs ++ [(path, size)] }

/-- `Path(s).name`: the last component of a POSIX path. -/
def pathBasename (s : String) : String := (s.splitOn "/").getLastD s

/-- The audio file name `f"{text_id}_{safe_text}.wav"` derived in both
single-item operations. -/
def audioFileName (text_id text : String) : String :=
  text_id ++ "_" ++ _sanitize_filename (text.take 50) ++ ".wav"

/-- The absolute output path `wav_dir / audio_filename` a (provider, model,
voice, item) combination resolves to. -/
def derivedAudioPath (base provider model voice text_id text : String) : String :=
  pathJoin (pathJoin (pathJoin (pathJoin (pathJoin base provider) model) voice) "wav")
    (audioFileName text_id text)

/-- `audio_path.relative_to(base_dir)` for the same combination. -/
def relAudioPath (provider model voice text_id text : String) : String :=
  pathJoin (pathJoin (pathJoin (pathJoin provider model) voice) "wav")
    (audioFileName text_id text)

/-- `DatasetGenerator.synthesize_single_text`.  Returns the result, the new
on-disk state and the list of capability invocations made. -/
def synthesize_single_text (env : GenEnv) (st : DMState)
    (text_id text provider_name model voice : String) :
    SynthesisResult × DMState × List CapCall :=
  match env.providers.lookup provider_name with
  | none =>
    ({ success := false, text := text, provider := provider_name, model := model,
       audio_path := "", metadata_path := "", duration := 0, voice := some voice,
       error := some ("Provider " ++ provider_name ++ " is not available") },
     st, [])
  | some provider =>
    let out := create_output_directory env.base_dir st provider_name model voice
    let wav_dir := out.1
    let metadata_file := out.2.1
    let st1 := out.2.2
    let audio_filename := audioFileName text_id text
    let audio_path := pathJoin wav_dir audio_filename
    let rel_path := relAudioPath provider_name model voice text_id text
    if wavExists st1 audio_path then
      let st2 := (add_metadata_entry env.now st1 metadata_file text rel_path
        provider_name model voice "synthesize" provider.sample_rate
        (some 0) (some text_id)).2
      ({ success := true, text := text, provider := provider_name, model := model,
         audio_path := audio_path, metadata_path := metadata_file, duration := 0,
         file_size := wavSize st1 audio_path, voice := some voice,
         skipped_duplicate := true }, st2, [])
    else
      match provider.synthMeta text voice with
      | .error e =>
        ({ success := false, text := text, provider := provider_name, model := model,
           audio_path := "", metadata_path := "", duration := 0, voice := some voice,
           error := some ("Error during synthesis: " ++ e) },
         st1, [CapCall.synthCall provider_name text voice audio_path])
      | .ok m =>
        if m.success then
          let st2 := addWav st1 audio_path m.file_size
          let st3 := (add_metadata_entry env.now st2 metadata_file text rel_path
            provider_name model voice "synthesize" provider.sample_rate
            (some m.estimated_duration) (some text_id)).2
          ({ success := true, text := text, provider := provider_name, model := model,
             audio_path := audio_path, metadata_path := metadata_file,
             duration := m.estimated_duration, file_size := m.file_size,
             voice := some voice },
           st3, [CapCall.synthCall provider_name text voice audio_path])
        else
          ({ success := false, text := text, provider := provider_name, model := model,
             audio_path := audio_path, metadata_path := metadata_file, duration := 0,
             voice := some voice,
             error := some (m.error.getD "Unknown error during synthesis") },
           st1, [CapCall.synthCall provider_name text voice audio_path])

/-- `model = model or Path(reference_audio).name if reference_audio else ""`
(the conditional expression binds last, so the default applies whenever
`reference_audio` is non-empty and `model` is falsy). -/
def cloneModelDefault (model : Option String) (reference_audio : String) : String :=
  if reference_audio ≠ "" then
    match model with
    | some m => if m = "" then pathBasename reference_audio else m
    | none => pathBasename reference_audio
  else ""

/-- `DatasetGenerator.clone_single_text`. -/
def clone_single_text (env : GenEnv) (st : DMState)
    (text_id text provider_name reference_audio voice : String)
    (model? : Option String) : CloneResult × DMState × List CapCall :=
  let model := cloneModelDefault model? reference_audio
  match env.providers.lookup provider_name with
  | none =>
    ({ success := false, text := text, provider := provider_name, model := model,
       audio_path := "", metadata_path := "", duration := 0,
       reference_audio := some reference_audio,
       error := some ("Provider " ++ provider_name ++ " is not available") },
     st, [])
  | some provider =>
    let out := create_output_directory env.base_dir st provider_name model voice
    let wav_dir := out.1
    let metadata_file := out.2.1
    let st1 := out.2.2
    let audio_filename := audioFileName text_id text
    let audio_path := pathJoin wav_dir audio_filename
    let rel_path := relAudioPath provider_name model voice text_id text
    if wavExists st1 audio_path then
      ({ success := true, text := text, provider := provider_name, model := model,
         audio_path := audio_path, metadata_path := metadata_file, duration := 0,
         file_size := wavSize st1 audio_path,
         reference_audio := some reference_audio, skipped_duplicate := true,
         clone_id := some (toString (env.hashString reference_audio)) }, st1, [])
    else
      match provider.cloneMeta text reference_audio with
      | .error e =>
        ({ success := false, text := text, provider := provider_name, model := model,
           audio_path := "", metadata_path := "", duration := 0,
           reference_audio := some reference_audio,
           error := some ("Error during cloning: " ++ e) },
         st1, [CapCall.cloneCall provider_name text reference_audio audio_path])
      | .ok m =>
        if m.success then
          let st2 := addWav st1 audio_path m.file_size
          let st3 := (add_metadata_entry_clone env.now st2 metadata_file text rel_path
            provider_name reference_audio "clone" provider.sample_rate
            (some m.estimated_duration) (some text_id) (some m.audio_url)
            (some (m.clone_id.getD ""))).2
          ({ success := true, text := text, provider := provider_name, model := model,
             audio_path := audio_path, metadata_path := metadata_file,
             duration := m.estimated_duration, file_size := m.file_size,
             reference_audio := some reference_audio, clone_id := m.clone_id },
           st3, [CapCall.cloneCall provider_name text reference_audio audio_path])
        else
          ({ success := false, text := text, provider := provider_name, model := model,
             audio_path := audio_path, metadata_path := metadata_file, duration := 0,
             reference_audio := some reference_audio,
             error := some (m.error.getD "Unknown error during cloning") },
           st1, [CapCall.cloneCall provider_name text reference_audio audio_path])

/-! ### Batch iteration -/

/-- The accumulators the batch loops thread: the growing `all_results` and
`errors` lists, the on-disk state, the capability-call trace, and whether a
re-raised exception has aborted the run (after which nothing further is
attempted and the outer handler finishes the summary). -/
structure RunAcc where
  results : List GenResult
  errors : List String
  dm : DMState
  calls : List CapCall
  aborted : Bool
deriving DecidableEq, Repr

/-- Initial accumulator of a run starting from state `st`. -/
def initAcc (st : DMState) : RunAcc :=
  { results := [], errors := [], dm := st, calls := [], aborted := false }

/-- Fuel-indexed worker for `range(0, len(items), n)` slicing; the fuel
(initially the list length) only bounds the structural recursion. -/
def chunkGo (n : Nat) : Nat → List α → List (List α)
  | 0, _ => []
  | _ + 1, [] => []
  | fuel + 1, a :: t => ((a :: t).take n) :: chunkGo n fuel ((a :: t).drop n)

/-- `[items[i:i+n] for i in range(0, len(items), n)]` for `n > 0`.
(`n = 0` makes Python's `range` raise; the entry points below handle that
case before chunking.) -/
def chunkList (n : Nat) (l : List α) : List (List α) :=
  if n = 0 then [] else chunkGo n l.length l

/-- One (item, config) attempt of `synthesize_from_text_list`: call
`_generate_single_text` (= `synthesize_single_text`), append the result on
success, otherwise append the error string; when `continue_on_error` is
false a failure raises, the handler appends a second error string and
re-raises, and the outer handler appends `Critical error: ...`. -/
def processPairSynth (env : GenEnv) (coe : Bool) (cfg : String × String × String)
    (text_id text : String) (acc : RunAcc) : RunAcc :=
  if acc.aborted then acc else
  let p := cfg.1
  let m := cfg.2.1
  let v := cfg.2.2
  let step := synthesize_single_text env acc.dm text_id text p m v
  let r := step.1
  let st1 := step.2.1
  let cs := step.2.2
  if r.success then
    { acc with
      results := acc.results ++ [GenResult.synth r],
      dm := st1,
      calls := acc.calls ++ cs }
  else
    let err := r.error.getD "None"
    let e1 := "Text '" ++ text.take 50 ++ "...' (ID: " ++ text_id ++ "): " ++ err
    if coe then
      { acc with errors := acc.errors ++ [e1], dm := st1, calls := acc.calls ++ cs }
    else
      let gf := "Generation failed: " ++ err
      let e2 := "Error with text '" ++ text.take 50 ++ "...' (ID: " ++ text_id ++
        ") and (" ++ p ++ ", " ++ m ++ ", " ++ v ++ "): " ++ gf
      let e3 := "Critical error: " ++ gf
      { acc with
        errors := acc.errors ++ [e1, e2, e3],
        dm := st1,
        calls := acc.calls ++ cs,
        aborted := true }

/-- One text item of `synthesize_from_text_list`: skip blanks, otherwise
attempt every provider configuration in input order. -/
def processItemSynth (env : GenEnv) (coe : Bool)
    (cfgs : List (String × String × String)) (item : String × String)
    (acc : RunAcc) : RunAcc :=
  if isBlank item.2 then acc
  else cfgs.foldl (fun a cfg => processPairSynth env coe cfg item.1 item.2 a) acc

/-- The batched item loop of `synthesize_from_text_list`. -/
def runSynthBatches (env : GenEnv) (coe : Bool)
    (cfgs : List (String × String × String))
    (batches : List (List (String × String))) (acc : RunAcc) : RunAcc :=
  batches.foldl
    (fun a batch => batch.foldl (fun a it => processItemSynth env coe cfgs it a) a) acc

/-- `DatasetGenerator.synthesize_from_text_list`. -/
def synthesize_from_text_list (env : GenEnv) (st : DMState)
    (text_items : List (String × String))
    (provider_model_voice_list : List (String × String × String))
    (batch_size : Nat) (continue_on_error : Bool) :
    Except PyErr (BatchGenerationSummary × DMState × List CapCall) :=
  if text_items.isEmpty then .error (PyErr.valueError "Empty text_items list")
  else if provider_model_voice_list.isEmpty then
    .error (PyErr.valueError "Empty provider_model_voice list")
  else if batch_size = 0 then
    -- `range(0, n, 0)` raises ValueError, caught by the outer handler
    .ok ({ total_texts := text_items.length, successful_generations := 0,
           failed_generations := 1,
           errors := ["Critical error: range() arg 3 must not be zero"],
           results := [] }, st, [])
  else
    let acc := runSynthBatches env continue_on_error provider_model_voice_list
      (chunkList batch_size text_items) (initAcc st)
    .ok ({ total_texts := text_items.length,
           successful_generations := (acc.results.filter GenResult.success).length,
           failed_generations := acc.errors.length,
           errors := acc.errors, results := acc.results }, acc.dm, acc.calls)

/-! ### Clone batch (`clone_from_text_list`): configurations are grouped by
provider before iteration. -/

/-- One step of building `provider_groups` (a `dict` keyed by provider name,
preserving first-appearance order, each value the list of
`(reference_filename, voice)` pairs in input order). -/
def insertGroup : List (String × List (String × String)) → String →
    String × String → List (String × List (String × String))
  | [], p, rv => [(p, [rv])]
  | (q, l) :: rest, p, rv =>
    if q = p then (q, l ++ [rv]) :: rest else (q, l) :: insertGroup rest p rv

/-- The `provider_groups` dictionary of `clone_from_text_list`. -/
def groupByProvider (cfgs : List (String × String × String)) :
    List (String × List (String × String)) :=
  cfgs.foldl (fun gs c => insertGroup gs c.1 (c.2.1, c.2.2)) []

/-- One (pair, item) attempt in the non-selenium clone loop. -/
def processPairCloneNS (env : GenEnv) (coe : Bool) (reference_audio : String)
    (provider_name : String) (pair : String × String) (text_id text : String)
    (acc : RunAcc) : RunAcc :=
  if acc.aborted then acc else
  let ref_filename := pair.1
  let voice := pair.2
  let step := clone_single_text env acc.dm text_id text provider_name
    reference_audio voice (some ref_filename)
  let r := step.1
  let st1 := step.2.1
  let cs := step.2.2
  if r.success then
    { acc with
      results := acc.results ++ [GenResult.clone r],
      dm := st1,
      calls := acc.calls ++ cs }
  else
    let err := r.error.getD "None"
    let e1 := "Text '" ++ text.take 50 ++ "...' (ID: " ++ text_id ++ "): " ++ err
    if coe then
      { acc with errors := acc.errors ++ [e1], dm := st1, calls := acc.calls ++ cs }
    else
      let gf := "Generation failed: " ++ err
      let e2 := "Error with text '" ++ text.take 50 ++ "...' (ID: " ++ text_id ++
        ") and (" ++ provider_name ++ ", " ++ ref_filename ++ ", " ++ voice ++
        "): " ++ gf
      let e3 := "Critical error: " ++ gf
      { acc with
        errors := acc.errors ++ [e1, e2, e3],
        dm := st1,
        calls := acc.calls ++ cs,
        aborted := true }

/-- One (pair, item) attempt in the selenium clone loop (the enclosing `try`
wraps the whole batch, so the two extra error strings on a non-continuing
failure differ from the non-selenium ones). -/
def processPairCloneSel (env : GenEnv) (coe : Bool) (reference_audio : String)
    (provider_name : String) (pair : String × String) (text_id text : String)
    (acc : RunAcc) : RunAcc :=
  if acc.aborted then acc else
  let ref_filename := pair.1
  let voice := pair.2
  let step := clone_single_text env acc.dm text_id text provider_name
    reference_audio voice (some ref_filename)
  let r := step.1
  let st1 := step.2.1
  let cs := step.2.2
  if r.success then
    { acc with
      results := acc.results ++ [GenResult.clone r],
      dm := st1,
      calls := acc.calls ++ cs }
  else
    let err := r.error.getD "None"
    let e1 := "Text '" ++ text.take 50 ++ "...' (ID: " ++ text_id ++ "): " ++ err
    if coe then
      { acc with errors := acc.errors ++ [e1], dm := st1, calls := acc.calls ++ cs }
    else
      let gf := "Generation failed: " ++ err
      let e2 := "Error with " ++ provider_name ++ ": " ++ gf
      let e3 := "Critical error: " ++ gf
      { acc with
        errors := acc.errors ++ [e1, e2, e3],
        dm := st1,
        calls := acc.calls ++ cs,
        aborted := true }

/-- One batch of the selenium clone loop: pairs outer, items inner, blanks
skipped. -/
def processBatchCloneSel (env : GenEnv) (coe : Bool) (reference_audio : String)
    (provider_name : String) (pairs : List (String × String))
    (batch : List (String × String)) (acc : RunAcc) : RunAcc :=
  pairs.foldl
    (fun a pr => batch.foldl
      (fun a it =>
        if isBlank it.2 then a
        else processPairCloneSel env coe reference_audio provider_name pr
          it.1 it.2 a) a) acc

/-- One batch of the non-selenium clone loop: items outer, pairs inner,
blanks skipped. -/
def processBatchCloneNS (env : GenEnv) (coe : Bool) (reference_audio : String)
    (provider_name : String) (pairs : List (String × String))
    (batch : List (String × String)) (acc : RunAcc) : RunAcc :=
  batch.foldl
    (fun a it =>
      if isBlank it.2 then a
      else pairs.foldl
        (fun a pr => processPairCloneNS env coe reference_audio provider_name pr
          it.1 it.2 a) a) acc

/-- One provider group of `clone_from_text_list`: an unregistered provider
records one error for the whole group (and aborts when `continue_on_error`
is false); otherwise the items are processed batch by batch, with the
iteration shape picked by `provider.is_selenium`. -/
def processGroupClone (env : GenEnv) (coe : Bool) (reference_audio : String)
    (batch_size : Nat) (text_items : List (String × String))
    (acc : RunAcc) (group : String × List (String × String)) : RunAcc :=
  if acc.aborted then acc else
  let provider_name := group.1
  let pairs := group.2
  match env.providers.lookup provider_name with
  | none =>
    let e := "Provider " ++ provider_name ++ " not found"
    if coe then { acc with errors := acc.errors ++ [e] }
    else
      { acc with
        errors := acc.errors ++ [e, "Critical error: " ++ e],
        aborted := true }
  | some provider =>
    if batch_size = 0 then
      -- `range(0, n, 0)` raises, caught by the outer handler
      { acc with
        errors := acc.errors ++ ["Critical error: range() arg 3 must not be zero"],
        aborted := true }
    else if provider.is_selenium then
      (chunkList batch_size text_items).foldl
        (fun a b => processBatchCloneSel env coe reference_audio provider_name
          pairs b a) acc
    else
      (chunkList batch_size text_items).foldl
        (fun a b => processBatchCloneNS env coe reference_audio provider_name
          pairs b a) acc

/-- `DatasetGenerator.clone_from_text_list`. -/
def clone_from_text_list (env : GenEnv) (st : DMState)
    (text_items : List (String × String))
    (provider_model_voice_list : List (String × String × String))
    (reference_audio : Option String) (batch_size : Nat)
    (continue_on_error : Bool) :
    Except PyErr (BatchGenerationSummary × DMState × List CapCall) :=
  match reference_audio with
  | none =>
    .error (PyErr.valueError
      "reference_audio is required and must exist for clone operations")
  | some ra =>
    if ra = "" || !(env.fs_files.contains ra) then
      .error (PyErr.valueError
        "reference_audio is required and must exist for clone operations")
    else if text_items.isEmpty then
      .error (PyErr.valueError "Empty text_items list")
    else if provider_model_voice_list.isEmpty then
      .error (PyErr.valueError "Empty provider_model_voice list")
    else
      let acc := (groupByProvider provider_model_voice_list).foldl
        (processGroupClone env continue_on_error ra batch_size text_items)
        (initAcc st)
      .ok ({ total_texts := text_items.length,
             successful_generations := (acc.results.filter GenResult.success).length,
             failed_generations := acc.errors.length,
             errors := acc.errors, results := acc.results }, acc.dm, acc.calls)

/-- `str.lower()` on one character (ASCII range, as the operation types in
question are ASCII). -/
def pyLowerChar (c : Char) : Char :=
  if 'A' ≤ c ∧ c ≤ 'Z' then Char.ofNat (c.toNat + 32) else c

/-- `str.lower()`. -/
def pyLower (s : String) : String := String.mk (s.data.map pyLowerChar)

/-- The `total_texts = 0` summary `generate_from_text_list` returns for an
empty input list. -/
def emptySummary : BatchGenerationSummary :=
  { total_texts := 0, successful_generations := 0, failed_generations := 0,
    errors := [], results := [] }

/-- `DatasetGenerator.generate_from_text_list`, the routing entry point. -/
def generate_from_text_list (env : GenEnv) (st : DMState)
    (text_items : List (String × String))
    (provider_model_voice_list : List (String × String × String))
    (batch_size : Nat) (continue_on_error : Bool) (tts_type : String)
    (reference_audio : Option String) :
    Except PyErr (BatchGenerationSummary × DMState × List CapCall) :=
  if text_items.isEmpty then .ok (emptySummary, st, [])
  else if provider_model_voice_list.isEmpty then
    .error (PyErr.valueError "At least one provider configuration must be provided")
  else
    let t := pyLower tts_type
    if t ≠ "synthesize" ∧ t ≠ "clone" then
      .error (PyErr.valueError
        ("Invalid tts_type: " ++ t ++ ". Must be 'synthesize' or 'clone'"))
    else if t = "clone" ∧ reference_audio = none then
      .error (PyErr.valueError "reference_audio is required for clone operations")
    else if t = "clone" ∧ !(env.fs_files.contains (reference_audio.getD "")) then
      .error (PyErr.fileNotFoundError
        ("Reference audio file not found: " ++ reference_audio.getD ""))
    else if t = "synthesize" then
      synthesize_from_text_list env st text_items provider_model_voice_list
        batch_size continue_on_error
    else
      clone_from_text_list env st text_items provider_model_voice_list
        reference_audio batch_size continue_on_error

/-! ### Fallible filesystem model for the ledger manager's error handling

Each primitive the ledger manager touches may raise; the oracle fixes which
of them do.  `add_metadata_entry` wraps its whole body in `try/except` and
returns `False` on any failure, so its model returns a plain pair;
`create_output_directory`'s handler logs and re-raises, so its model returns
`Except`. -/

/-- Which filesystem primitives raise, and with what message. -/
structure FSOracle where
  mkdir_raises : Option String
  read_raises : Option String
  append_raises : Option String
  header_write_raises : Option String

/-- The oracle under which no primitive fails. -/
def FSOracle.clean : FSOracle :=
  { mkdir_raises := none, read_raises := none, append_raises := none,
    header_write_raises := none }

/-- `DirectoryManager.initialize_metadata_file` with fallible I/O: the
header write failure is caught and reported as `False`. -/
def initialize_metadata_file_fallible (o : FSOracle) (st : DMState)
    (metadata_file : String) (columns : List String) : Bool × DMState :=
  if (st.ledgers.lookup metadata_file).isSome then (true, st)
  else
    match o.header_write_raises with
    | some _ => (false, st)
    | none => (true, { st with
        ledgers := upsertLedger st.ledgers metadata_file [columns.map Field.str] })

/-- `DirectoryManager.create_output_directory` with fallible I/O: a `mkdir`
failure propagates to the caller (`except ...: log; raise`); note the header
initialization's boolean outcome is ignored, exactly as in the source. -/
def create_output_directory_fallible (o : FSOracle) (base : String) (st : DMState)
    (provider model voice : String) :
    Except String (String × String × DMState) :=
  match o.mkdir_raises with
  | some e => .error e
  | none =>
    let voice_dir := pathJoin (pathJoin (pathJoin base provider) model) voice
    let wav_dir := pathJoin voice_dir "wav"
    let metadata_file := pathJoin voice_dir "metadata.tsv"
    let st1 := (initialize_metadata_file_fallible o st metadata_file
      synthesizeColumns).2
    .ok (wav_dir, metadata_file, st1)

/-- The fallible body of `add_metadata_entry`: count the existing lines
(a read, performed only when the file exists), build the row, append it. -/
def add_metadata_entry_body (o : FSOracle) (now : String) (st : DMState)
    (metadata_file : String) (text : String) (audio_path : String)
    (provider model voice tts_type : String) (sample_rate : Nat)
    (duration : Option Rat) (text_id : Option String) : Except String DMState := do
  let current_count ←
    if (st.ledgers.lookup metadata_file).isSome then
      match o.read_raises with
      | some e => Except.error e
      | none => pure (nonHeaderCount st metadata_file)
    else pure 0
  let utt_id := fmt3 (current_count + 1)
  let dur := duration.getD (_estimate_duration text)
  let entry : Row :=
    [Field.str utt_id, Field.str (text_id.getD ""), Field.str text,
     Field.str audio_path, Field.str provider, Field.str model,
     Field.str voice, Field.str tts_type, Field.str (toString sample_rate),
     Field.str "vi", Field.rat dur, Field.str now]
  match o.append_raises with
  | some e => Except.error e
  | none => pure (appendRowToFile st metadata_file entry)

/-- `DirectoryManager.add_metadata_entry` with fallible I/O: the enclosing
`try/except` turns any failure into a logged `False`, leaving the file as it
was; no exception escapes. -/
def add_metadata_entry_fallible (o : FSOracle) (now : String) (st : DMState)
    (metadata_file : String) (text : String) (audio_path : String)
    (provider model voice tts_type : String) (sample_rate : Nat)
    (duration : Option Rat) (text_id : Option String) : Bool × DMState :=
  match add_metadata_entry_body o now st metadata_file text audio_path provider
    model voice tts_type sample_rate duration text_id with
  | .ok st1 => (true, st1)
  | .error _ => (false, st)

/-- The fallible body of `add_metadata_entry_clone`: count the existing
lines (a read, performed only when the file exists), build the 13-field
clone row, append it. -/
def add_metadata_entry_clone_body (o : FSOracle) (now : String) (st : DMState)
    (metadata_file : String) (text : String) (audio_path : String)
    (provider reference_audio tts_type : String) (sample_rate : Nat)
    (duration : Option Rat) (text_id : Option String)
    (audio_url : Option String) (clone_id : Option String) :
    Except String DMState := do
  let current_count ←
    if (st.ledgers.lookup metadata_file).isSome then
      match o.read_raises with
      | some e => Except.error e
      | none => pure (nonHeaderCount st metadata_file)
    else pure 0
  let utt_id := fmt3 (current_count + 1)
  let dur := duration.getD (_estimate_duration text)
  let entry : Row :=
    [Field.str utt_id, Field.str (text_id.getD ""), Field.str text,
     Field.str audio_path, Field.str provider, Field.str reference_audio,
     Field.str tts_type, Field.str (toString sample_rate), Field.str "vi",
     Field.rat dur, Field.str now, Field.str (audio_url.getD ""),
     Field.str (clone_id.getD "")]
  match o.append_raises with
  | some e => Except.error e
  | none => pure (appendRowToFile st metadata_file entry)

/-- `DirectoryManager.add_metadata_entry_clone` with fallible I/O: its
enclosing `try/except` likewise turns any failure into a logged `False`,
leaving the file as it was; no exception escapes. -/
def add_metadata_entry_clone_fallible (o : FSOracle) (now : String) (st : DMState)
    (metadata_file : String) (text : String) (audio_path : String)
    (provider reference_audio tts_type : String) (sample_rate : Nat)
    (duration : Option Rat) (text_id : Option String)
    (audio_url : Option String) (clone_id : Option String) : Bool × DMState :=
  match add_metadata_entry_clone_body o now st metadata_file text audio_path
    provider reference_audio tts_type sample_rate duration text_id
    audio_url clone_id with
  | .ok st1 => (true, st1)
  | .error _ => (false, st)

/-- `DatasetGenerator.synthesize_single_text` with fallible ledger I/O.
The ledger-manager calls go through the oracle; the appends' boolean
outcomes are discarded, exactly as in the source, and a failure propagated
by `create_output_directory` is caught by the operation's own `try/except`
and becomes a failure result. -/
def synthesize_single_text_fallible (o : FSOracle) (env : GenEnv) (st : DMState)
    (text_id text provider_name model voice : String) :
    SynthesisResult × DMState × List CapCall :=
  match env.providers.lookup provider_name with
  | none =>
    ({ success := false, text := text, provider := provider_name, model := model,
       audio_path := "", metadata_path := "", duration := 0, voice := some voice,
       error := some ("Provider " ++ provider_name ++ " is not available") },
     st, [])
  | some provider =>
    match create_output_directory_fallible o env.base_dir st provider_name
      model voice with
    | .error e =>
      ({ success := false, text := text, provider := provider_name, model := model,
         audio_path := "", metadata_path := "", duration := 0, voice := some voice,
         error := some ("Error during synthesis: " ++ e) },
       st, [])
    | .ok out =>
      let wav_dir := out.1
      let metadata_file := out.2.1
      let st1 := out.2.2
      let audio_filename := audioFileName text_id text
      let audio_path := pathJoin wav_dir audio_filename
      let rel_path := relAudioPath provider_name model voice text_id text
      if wavExists st1 audio_path then
        let st2 := (add_metadata_entry_fallible o env.now st1 metadata_file text
          rel_path provider_name model voice "synthesize" provider.sample_rate
          (some 0) (some text_id)).2
        ({ success := true, text := text, provider := provider_name, model := model,
           audio_path := audio_path, metadata_path := metadata_file, duration := 0,
           file_size := wavSize st1 audio_path, voice := some voice,
           skipped_duplicate := true }, st2, [])
      else
        match provider.synthMeta text voice with
        | .error e =>
          ({ success := false, text := text, provider := provider_name,
             model := model, audio_path := "", metadata_path := "", duration := 0,
             voice := some voice,
             error := some ("Error during synthesis: " ++ e) },
           st1, [CapCall.synthCall provider_name text voice audio_path])
        | .ok m =>
          if m.success then
            let st2 := addWav st1 audio_path m.file_size
            let st3 := (add_metadata_entry_fallible o env.now st2 metadata_file
              text rel_path provider_name model voice "synthesize"
              provider.sample_rate (some m.estimated_duration) (some text_id)).2
            ({ success := true, text := text, provider := provider_name,
               model := model, audio_path := audio_path,
               metadata_path := metadata_file,
               duration := m.estimated_duration, file_size := m.file_size,
               voice := some voice },
             st3, [CapCall.synthCall provider_name text voice audio_path])
          else
            ({ success := false, text := text, provider := provider_name,
               model := model, audio_path := audio_path,
               metadata_path := metadata_file, duration := 0,
               voice := some voice,
               error := some (m.error.getD "Unknown error during synthesis") },
             st1, [CapCall.synthCall provider_name text voice audio_path])

/-- `DatasetGenerator.clone_single_text` with fallible ledger I/O, analogous
to the synthesize variant. -/
def clone_single_text_fallible (o : FSOracle) (env : GenEnv) (st : DMState)
    (text_id text provider_name reference_audio voice : String)
    (model? : Option String) : CloneResult × DMState × List CapCall :=
  let model := cloneModelDefault model? reference_audio
  match env.providers.lookup provider_name with
  | none =>
    ({ success := false, text := text, provider := provider_name, model := model,
       audio_path := "", metadata_path := "", duration := 0,
       reference_audio := some reference_audio,
       error := some ("Provider " ++ provider_name ++ " is not available") },
     st, [])
  | some provider =>
    match create_output_directory_fallible o env.base_dir st provider_name
      model voice with
    | .error e =>
      ({ success := false, text := text, provider := provider_name, model := model,
         audio_path := "", metadata_path := "", duration := 0,
         reference_audio := some reference_audio,
         error := some ("Error during cloning: " ++ e) },
       st, [])
    | .ok out =>
      let wav_dir := out.1
      let metadata_file := out.2.1
      let st1 := out.2.2
      let audio_filename := audioFileName text_id text
      let audio_path := pathJoin wav_dir audio_filename
      let rel_path := relAudioPath provider_name model voice text_id text
      if wavExists st1 audio_path then
        ({ success := true, text := text, provider := provider_name, model := model,
           audio_path := audio_path, metadata_path := metadata_file, duration := 0,
           file_size := wavSize st1 audio_path,
           reference_audio := some reference_audio, skipped_duplicate := true,
           clone_id := some (toString (env.hashString reference_audio)) }, st1, [])
      else
        match provider.cloneMeta text reference_audio with
        | .error e =>
          ({ success := false, text := text, provider := provider_name,
             model := model, audio_path := "", metadata_path := "", duration := 0,
             reference_audio := some reference_audio,
             error := some ("Error during cloning: " ++ e) },
           st1, [CapCall.cloneCall provider_name text reference_audio audio_path])
        | .ok m =>
          if m.success then
            let st2 := addWav st1 audio_path m.file_size
            let st3 := (add_metadata_entry_clone_fallible o env.now st2
              metadata_file text rel_path provider_name reference_audio "clone"
              provider.sample_rate (some m.estimated_duration) (some text_id)
              (some m.audio_url) (some (m.clone_id.getD ""))).2
            ({ success := true, text := text, provider := provider_name,
               model := model, audio_path := audio_path,
               metadata_path := metadata_file,
               duration := m.estimated_duration, file_size := m.file_size,
               reference_audio := some reference_audio, clone_id := m.clone_id },
             st3, [CapCall.cloneCall provider_name text reference_audio audio_path])
          else
            ({ success := false, text := text, provider := provider_name,
               model := model, audio_path := audio_path,
               metadata_path := metadata_file, duration := 0,
               reference_audio := some reference_audio,
               error := some (m.error.getD "Unknown error during cloning") },
             st1, [CapCall.cloneCall provider_name text reference_audio audio_path])

/-! ### Basic lemmas about the state model -/

theorem lookup_upsertLedger (l : List (String × List Row)) (p : String)
    (rows : List Row) : (upsertLedger l p rows).lookup p = some rows := by
  induction l with
  | nil => simp [upsertLedger]
  | cons hd t ih =>
    obtain ⟨q, r⟩ := hd
    by_cases hq : q = p
    · simp [upsertLedger, hq]
    · have hpq : (p == q) = false := beq_eq_false_iff_ne.mpr (fun h => hq h.symm)
      simp [upsertLedger, hq, List.lookup, hpq, ih]

theorem getLedger_appendRowToFile (st : DMState) (f : String) (row : Row) :
    getLedger (appendRowToFile st f row) f =
      some (((getLedger st f).getD []) ++ [row]) := by
  simp [getLedger, appendRowToFile, lookup_upsertLedger]

theorem wavs_appendRowToFile (st : DMState) (f : String) (row : Row) :
    (appendRowToFile st f row).wavs = st.wavs := rfl

theorem wavs_add_metadata_entry (now : String) (st : DMState) (f text ap p m v tt : String)
    (sr : Nat) (d : Option Rat) (tid : Option String) :
    (add_metadata_entry now st f text ap p m v tt sr d tid).2.wavs = st.wavs := rfl

theorem wavs_initialize_metadata_file (st : DMState) (f : String) (cols : List String) :
    (initialize_metadata_file st f cols).2.wavs = st.wavs := by
  unfold initialize_metadata_file
  by_cases h : (st.ledgers.lookup f).isSome <;> simp [h]

theorem wavs_create_output_directory (base : String) (st : DMState) (p m v : String) :
    (create_output_directory base st p m v).2.2.wavs = st.wavs := by
  unfold create_output_directory
  exact wavs_initialize_metadata_file ..

theorem ledgers_initialize_exists (st : DMState) (f : String) (cols : List String)
    (h : (st.ledgers.lookup f).isSome) :
    (initialize_metadata_file st f cols).2 = st := by
  simp [initialize_metadata_file, h]

/-! ### Chunking: the batched loops traverse the items in input order -/

theorem chunkGo_flatten {α : Type} (n : Nat) (hn : 0 < n) :
    ∀ (fuel : Nat) (l : List α), l.length ≤ fuel →
      (chunkGo n fuel l).flatten = l := by
  intro fuel
  induction fuel with
  | zero =>
    intro l hl
    have : l = [] := List.length_eq_zero.mp (Nat.le_zero.mp hl)
    subst this
    simp [chunkGo]
  | succ fuel ih =>
    intro l hl
    cases l with
    | nil => simp [chunkGo]
    | cons a t =>
      have hdrop : ((a :: t).drop n).length ≤ fuel := by
        rw [List.length_drop]
        simp only [List.length_cons]
        simp only [List.length_cons] at hl
        omega
      calc (chunkGo n (fuel + 1) (a :: t)).flatten
          = (a :: t).take n ++ (chunkGo n fuel ((a :: t).drop n)).flatten := by
            rw [chunkGo, List.flatten_cons]
        _ = (a :: t).take n ++ (a :: t).drop n := by rw [ih _ hdrop]
        _ = a :: t := List.take_append_drop n (a :: t)

theorem chunkList_flatten {α : Type} (n : Nat) (hn : 0 < n) (l : List α) :
    (chunkList n l).flatten = l := by
  unfold chunkList
  rw [if_neg (Nat.pos_iff_ne_zero.mp hn)]
  exact chunkGo_flatten n hn l.length l le_rfl

theorem runSynthBatches_eq_items (env : GenEnv) (coe : Bool)
    (cfgs : List (String × String × String)) (bs : Nat) (hbs : 0 < bs)
    (items : List (String × String)) (acc : RunAcc) :
    runSynthBatches env coe cfgs (chunkList bs items) acc =
      items.foldl (fun a it => processItemSynth env coe cfgs it a) acc := by
  unfold runSynthBatches
  rw [← chunkList_flatten bs hbs items, List.foldl_flatten, chunkList_flatten bs hbs]

/-- The item-major pair stream (non-blank items outer, configurations inner)
that the synthesize loop traverses. -/
def pairStreamSynth (items : List (String × String))
    (cfgs : List (String × String × String)) :
    List ((String × String) × (String × String × String)) :=
  (items.filter (fun it => !(isBlank it.2))).flatMap
    (fun it => cfgs.map (fun c => (it, c)))

theorem items_foldl_eq_pairStream (env : GenEnv) (coe : Bool)
    (cfgs : List (String × String × String)) :
    ∀ (items : List (String × String)) (acc : RunAcc),
      items.foldl (fun a it => processItemSynth env coe cfgs it a) acc =
        (pairStreamSynth items cfgs).foldl
          (fun a pc => processPairSynth env coe pc.2 pc.1.1 pc.1.2 a) acc := by
  intro items
  induction items with
  | nil => intro acc; simp [pairStreamSynth]
  | cons it t ih =>
    intro acc
    by_cases hb : isBlank it.2
    · have hstep : processItemSynth env coe cfgs it acc = acc := by
        simp [processItemSynth, hb]
      rw [List.foldl_cons]
      simp only [hstep]
      rw [ih]
      simp [pairStreamSynth, List.filter_cons, hb]
    · have hstep : processItemSynth env coe cfgs it acc =
          cfgs.foldl (fun a cfg => processPairSynth env coe cfg it.1 it.2 a) acc := by
        simp [processItemSynth, hb]
      rw [List.foldl_cons]
      simp only [hstep]
      rw [ih]
      simp only [pairStreamSynth, List.filter_cons, hb, Bool.not_false, if_true]
      rw [List.flatMap_cons, List.foldl_append, List.foldl_map]

/-! ### One record per attempted pair -/

/-- The number of records a run has produced: success results plus error
strings. -/
def accCount (acc : RunAcc) : Nat := acc.results.length + acc.errors.length

/-- Invariant of a run that has not aborted: nothing has re-raised, and
every element of `all_results` was appended on its success branch. -/
def accGood (acc : RunAcc) : Prop :=
  acc.aborted = false ∧ ∀ g ∈ acc.results, g.success = true

theorem accGood_init (st : DMState) : accGood (initAcc st) := by
  constructor
  · rfl
  · intro g hg
    simp [initAcc] at hg

theorem processPairSynth_step (env : GenEnv) (cfg : String × String × String)
    (text_id text : String) (acc : RunAcc) (hg : accGood acc) :
    accGood (processPairSynth env true cfg text_id text acc) ∧
      accCount (processPairSynth env true cfg text_id text acc) = accCount acc + 1 := by
  obtain ⟨hab, hres⟩ := hg
  unfold processPairSynth
  cases hr : (synthesize_single_text env acc.dm text_id text cfg.1 cfg.2.1 cfg.2.2).1.success with
  | true =>
    refine ⟨⟨?_, ?_⟩, ?_⟩
    · simp [hab, hr]
    · intro g hg2
      simp [hab, hr] at hg2
      rcases hg2 with h | h
      · exact hres g h
      · subst h
        simp [GenResult.success, hr]
    · simp [hab, hr, accCount]
      omega
  | false =>
    refine ⟨⟨?_, ?_⟩, ?_⟩
    · simp [hab, hr]
    · intro g hg2
      simp [hab, hr] at hg2
      exact hres g hg2
    · simp [hab, hr, accCount]
      omega

theorem foldl_good_count {α : Type} (f : RunAcc → α → RunAcc)
    (hf : ∀ (a : RunAcc) (x : α), accGood a →
      accGood (f a x) ∧ accCount (f a x) = accCount a + 1) :
    ∀ (l : List α) (a : RunAcc), accGood a →
      accGood (l.foldl f a) ∧ accCount (l.foldl f a) = accCount a + l.length := by
  intro l
  induction l with
  | nil => intro a ha; simpa using ha
  | cons x t ih =>
    intro a ha
    obtain ⟨hg1, hc1⟩ := hf a x ha
    obtain ⟨hg2, hc2⟩ := ih (f a x) hg1
    refine ⟨hg2, ?_⟩
    rw [List.foldl_cons, hc2, hc1]
    simp
    omega

theorem processItemSynth_step (env : GenEnv)
    (cfgs : List (String × String × String)) (item : String × String)
    (acc : RunAcc) (hg : accGood acc) :
    accGood (processItemSynth env true cfgs item acc) ∧
      accCount (processItemSynth env true cfgs item acc) =
        accCount acc + (if isBlank item.2 then 0 else cfgs.length) := by
  unfold processItemSynth
  by_cases hb : isBlank item.2
  · simpa [hb] using hg
  · simp only [hb, if_false]
    have := foldl_good_count
      (fun a cfg => processPairSynth env true cfg item.1 item.2 a)
      (fun a cfg ha => processPairSynth_step env cfg item.1 item.2 a ha)
      cfgs acc hg
    simpa using this

theorem runSynthItems_count (env : GenEnv)
    (cfgs : List (String × String × String)) :
    ∀ (items : List (String × String)) (acc : RunAcc), accGood acc →
      accGood (items.foldl (fun a it => processItemSynth env true cfgs it a) acc) ∧
      accCount (items.foldl (fun a it => processItemSynth env true cfgs it a) acc) =
        accCount acc + (items.countP (fun it => !(isBlank it.2))) * cfgs.length := by
  intro items
  induction items with
  | nil => intro acc ha; simpa using ha
  | cons it t ih =>
    intro acc ha
    obtain ⟨hg1, hc1⟩ := processItemSynth_step env cfgs it acc ha
    obtain ⟨hg2, hc2⟩ := ih (processItemSynth env true cfgs it acc) hg1
    refine ⟨by simpa using hg2, ?_⟩
    rw [List.foldl_cons]
    simp only [List.countP_cons]
    by_cases hb : isBlank it.2
    · simp only [hb, if_pos] at hc1
      simp [hb, hc2, hc1]
    · simp only [hb, if_neg] at hc1
      simp only [hb]
      rw [hc2, hc1]
      simp [Nat.add_mul]
      omega

/-! ### Counting for the clone loops -/

theorem foldl_good_sum {α : Type} (f : RunAcc → α → RunAcc) (m : α → Nat) :
    ∀ (l : List α),
      (∀ (a : RunAcc) (x : α), x ∈ l → accGood a →
        accGood (f a x) ∧ accCount (f a x) = accCount a + m x) →
      ∀ (a : RunAcc), accGood a →
        accGood (l.foldl f a) ∧ accCount (l.foldl f a) = accCount a + (l.map m).sum := by
  intro l
  induction l with
  | nil => intro _ a ha; simpa using ha
  | cons x t ih =>
    intro hf a ha
    obtain ⟨hg1, hc1⟩ := hf a x (List.mem_cons_self x t) ha
    obtain ⟨hg2, hc2⟩ := ih (fun a y hy hga => hf a y (List.mem_cons_of_mem x hy) hga)
      (f a x) hg1
    refine ⟨hg2, ?_⟩
    rw [List.foldl_cons, hc2, hc1]
    simp
    omega

theorem processPairCloneNS_step (env : GenEnv) (ra pname : String)
    (pr : String × String) (text_id text : String) (acc : RunAcc)
    (hg : accGood acc) :
    accGood (processPairCloneNS env true ra pname pr text_id text acc) ∧
      accCount (processPairCloneNS env true ra pname pr text_id text acc) =
        accCount acc + 1 := by
  obtain ⟨hab, hres⟩ := hg
  unfold processPairCloneNS
  cases hr : (clone_single_text env acc.dm text_id text pname ra pr.2 (some pr.1)).1.success with
  | true =>
    refine ⟨⟨?_, ?_⟩, ?_⟩
    · simp [hab, hr]
    · intro g hg2
      simp [hab, hr] at hg2
      rcases hg2 with h | h
      · exact hres g h
      · subst h
        simp [GenResult.success, hr]
    · simp [hab, hr, accCount]
      omega
  | false =>
    refine ⟨⟨?_, ?_⟩, ?_⟩
    · simp [hab, hr]
    · intro g hg2
      simp [hab, hr] at hg2
      exact hres g hg2
    · simp [hab, hr, accCount]
      omega

theorem processPairCloneSel_step (env : GenEnv) (ra pname : String)
    (pr : String × String) (text_id text : String) (acc : RunAcc)
    (hg : accGood acc) :
    accGood (processPairCloneSel env true ra pname pr text_id text acc) ∧
      accCount (processPairCloneSel env true ra pname pr text_id text acc) =
        accCount acc + 1 := by
  obtain ⟨hab, hres⟩ := hg
  unfold processPairCloneSel
  cases hr : (clone_single_text env acc.dm text_id text pname ra pr.2 (some pr.1)).1.success with
  | true =>
    refine ⟨⟨?_, ?_⟩, ?_⟩
    · simp [hab, hr]
    · intro g hg2
      simp [hab, hr] at hg2
      rcases hg2 with h | h
      · exact hres g h
      · subst h
        simp [GenResult.success, hr]
    · simp [hab, hr, accCount]
      omega
  | false =>
    refine ⟨⟨?_, ?_⟩, ?_⟩
    · simp [hab, hr]
    · intro g hg2
      simp [hab, hr] at hg2
      exact hres g hg2
    · simp [hab, hr, accCount]
      omega

theorem sum_if_blank (k : Nat) :
    ∀ (batch : List (String × String)),
      (batch.map (fun it => if isBlank it.2 then 0 else k)).sum =
        k * batch.countP (fun it => !(isBlank it.2)) := by
  intro batch
  induction batch with
  | nil => simp
  | cons it t iht =>
    by_cases hb : isBlank it.2
    · simp [hb, List.countP_cons, iht]
    · simp [hb, List.countP_cons, iht, Nat.mul_add]
      ring

theorem processBatchCloneSel_count (env : GenEnv) (ra pname : String)
    (pairs : List (String × String)) (batch : List (String × String))
    (acc : RunAcc) (hg : accGood acc) :
    accGood (processBatchCloneSel env true ra pname pairs batch acc) ∧
      accCount (processBatchCloneSel env true ra pname pairs batch acc) =
        accCount acc + pairs.length * (batch.countP (fun it => !(isBlank it.2))) := by
  unfold processBatchCloneSel
  have hinner : ∀ (pr : String × String) (a : RunAcc), accGood a →
      accGood (batch.foldl (fun a it => if isBlank it.2 then a
        else processPairCloneSel env true ra pname pr it.1 it.2 a) a) ∧
      accCount (batch.foldl (fun a it => if isBlank it.2 then a
        else processPairCloneSel env true ra pname pr it.1 it.2 a) a) =
        accCount a + batch.countP (fun it => !(isBlank it.2)) := by
    intro pr a ha
    have h := foldl_good_sum
      (fun a it => if isBlank it.2 then a
        else processPairCloneSel env true ra pname pr it.1 it.2 a)
      (fun it => if isBlank it.2 then 0 else 1) batch
      (by
        intro a it _ hga
        by_cases hb : isBlank it.2
        · simpa [hb] using hga
        · simpa [hb] using processPairCloneSel_step env ra pname pr it.1 it.2 a hga)
      a ha
    refine ⟨h.1, ?_⟩
    rw [h.2, sum_if_blank]
    simp
  have h := foldl_good_sum
    (fun a pr => batch.foldl (fun a it => if isBlank it.2 then a
      else processPairCloneSel env true ra pname pr it.1 it.2 a) a)
    (fun _ => batch.countP (fun it => !(isBlank it.2))) pairs
    (by intro a pr _ hga; exact hinner pr a hga) acc hg
  refine ⟨h.1, ?_⟩
  rw [h.2]
  congr 1
  rw [List.map_const']
  rw [List.sum_replicate, smul_eq_mul]

theorem processBatchCloneNS_count (env : GenEnv) (ra pname : String)
    (pairs : List (String × String)) (batch : List (String × String))
    (acc : RunAcc) (hg : accGood acc) :
    accGood (processBatchCloneNS env true ra pname pairs batch acc) ∧
      accCount (processBatchCloneNS env true ra pname pairs batch acc) =
        accCount acc + pairs.length * (batch.countP (fun it => !(isBlank it.2))) := by
  unfold processBatchCloneNS
  have h := foldl_good_sum
    (fun a it => if isBlank it.2 then a
      else pairs.foldl (fun a pr => processPairCloneNS env true ra pname pr it.1 it.2 a) a)
    (fun it => if isBlank it.2 then 0 else pairs.length) batch
    (by
      intro a it _ hga
      by_cases hb : isBlank it.2
      · simpa [hb] using hga
      · simp only [hb, Bool.false_eq_true, if_false]
        have h2 := foldl_good_sum
          (fun a pr => processPairCloneNS env true ra pname pr it.1 it.2 a)
          (fun _ => 1) pairs
          (by
            intro a pr _ hga2
            simpa using processPairCloneNS_step env ra pname pr it.1 it.2 a hga2)
          a hga
        refine ⟨h2.1, ?_⟩
        rw [h2.2]
        congr 1
        rw [List.map_const', List.sum_replicate, smul_eq_mul, Nat.mul_one])
    acc hg
  refine ⟨h.1, ?_⟩
  rw [h.2, sum_if_blank]

theorem countP_chunkList (bs : Nat) (hbs : 0 < bs) (q : String × String → Bool)
    (items : List (String × String)) :
    ((chunkList bs items).map (fun b => b.countP q)).sum = items.countP q := by
  conv_rhs => rw [← chunkList_flatten bs hbs items]
  rw [List.countP_flatten]

theorem processGroupClone_count (env : GenEnv) (ra : String) (bs : Nat)
    (hbs : 0 < bs) (items : List (String × String))
    (group : String × List (String × String)) (prov : Provider)
    (hprov : env.providers.lookup group.1 = some prov)
    (acc : RunAcc) (hg : accGood acc) :
    accGood (processGroupClone env true ra bs items acc group) ∧
      accCount (processGroupClone env true ra bs items acc group) =
        accCount acc +
          group.2.length * (items.countP (fun it => !(isBlank it.2))) := by
  obtain ⟨hab, hres⟩ := hg
  unfold processGroupClone
  simp only [hab, Bool.false_eq_true, if_false, hprov]
  have hbs' : ¬(bs = 0) := Nat.pos_iff_ne_zero.mp hbs
  simp only [hbs', if_false]
  cases hsel : prov.is_selenium with
  | true =>
    simp only [if_true]
    have h := foldl_good_sum
      (fun a b => processBatchCloneSel env true ra group.1 group.2 b a)
      (fun b => group.2.length * (b.countP (fun it => !(isBlank it.2))))
      (chunkList bs items)
      (by
        intro a b _ hga
        exact processBatchCloneSel_count env ra group.1 group.2 b a hga)
      acc ⟨hab, hres⟩
    refine ⟨h.1, ?_⟩
    rw [h.2]
    congr 1
    rw [List.sum_map_mul_left, countP_chunkList bs hbs]
  | false =>
    simp only [Bool.false_eq_true, if_false]
    have h := foldl_good_sum
      (fun a b => processBatchCloneNS env true ra group.1 group.2 b a)
      (fun b => group.2.length * (b.countP (fun it => !(isBlank it.2))))
      (chunkList bs items)
      (by
        intro a b _ hga
        exact processBatchCloneNS_count env ra group.1 group.2 b a hga)
      acc ⟨hab, hres⟩
    refine ⟨h.1, ?_⟩
    rw [h.2]
    congr 1
    rw [List.sum_map_mul_left, countP_chunkList bs hbs]

/-! ### The provider grouping preserves the configuration count -/

/-- Total number of (reference, voice) pairs across groups. -/
def groupSizes (gs : List (String × List (String × String))) : Nat :=
  (gs.map (fun g => g.2.length)).sum

theorem groupSizes_insertGroup (gs : List (String × List (String × String)))
    (p : String) (rv : String × String) :
    groupSizes (insertGroup gs p rv) = groupSizes gs + 1 := by
  induction gs with
  | nil => simp [insertGroup, groupSizes]
  | cons g t ih =>
    obtain ⟨q, l⟩ := g
    by_cases hq : q = p
    · simp [insertGroup, hq, groupSizes]
      omega
    · simp only [insertGroup, hq, if_false]
      simp [groupSizes] at ih ⊢
      omega

theorem groupSizes_groupByProvider (cfgs : List (String × String × String)) :
    groupSizes (groupByProvider cfgs) = cfgs.length := by
  suffices h : ∀ (gs : List (String × List (String × String))),
      groupSizes (cfgs.foldl (fun gs c => insertGroup gs c.1 (c.2.1, c.2.2)) gs) =
        groupSizes gs + cfgs.length by
    simpa [groupByProvider, groupSizes] using h []
  induction cfgs with
  | nil => intro gs; simp
  | cons c t ih =>
    intro gs
    rw [List.foldl_cons, ih, groupSizes_insertGroup]
    simp
    omega

theorem mem_insertGroup_name (gs : List (String × List (String × String)))
    (p : String) (rv : String × String) :
    ∀ g ∈ insertGroup gs p rv, g.1 = p ∨ ∃ g0 ∈ gs, g.1 = g0.1 := by
  induction gs with
  | nil =>
    intro g hgm
    simp [insertGroup] at hgm
    subst hgm
    left
    rfl
  | cons g0 t ih =>
    obtain ⟨q, l⟩ := g0
    intro g hgm
    by_cases hq : q = p
    · simp only [insertGroup, hq, if_true] at hgm
      rcases List.mem_cons.mp hgm with h | h
      · subst h; right; exact ⟨(p, l), by simp [hq]⟩
      · right; exact ⟨g, List.mem_cons_of_mem _ h, rfl⟩
    · simp only [insertGroup, hq, if_false] at hgm
      rcases List.mem_cons.mp hgm with h | h
      · subst h; right; exact ⟨(q, l), by simp⟩
      · rcases ih g h with h2 | ⟨g0, hg0, hg0e⟩
        · left; exact h2
        · right; exact ⟨g0, List.mem_cons_of_mem _ hg0, hg0e⟩

theorem mem_groupByProvider_name (cfgs : List (String × String × String)) :
    ∀ g ∈ groupByProvider cfgs, ∃ c ∈ cfgs, g.1 = c.1 := by
  suffices h : ∀ (gs : List (String × List (String × String))),
      ∀ g ∈ cfgs.foldl (fun gs c => insertGroup gs c.1 (c.2.1, c.2.2)) gs,
        (∃ g0 ∈ gs, g.1 = g0.1) ∨ ∃ c ∈ cfgs, g.1 = c.1 by
    intro g hgm
    rcases h [] g hgm with ⟨g0, hg0, _⟩ | h2
    · simp at hg0
    · exact h2
  induction cfgs with
  | nil =>
    intro gs g hgm
    left
    exact ⟨g, hgm, rfl⟩
  | cons c t ih =>
    intro gs g hgm
    rw [List.foldl_cons] at hgm
    rcases ih (insertGroup gs c.1 (c.2.1, c.2.2)) g hgm with ⟨g0, hg0, hg0e⟩ | h2
    · rcases mem_insertGroup_name gs c.1 (c.2.1, c.2.2) g0 hg0 with h3 | ⟨g1, hg1, hg1e⟩
      · right; exact ⟨c, List.mem_cons_self c t, hg0e.trans h3⟩
      · left; exact ⟨g1, hg1, hg0e.trans hg1e⟩
    · right
      obtain ⟨c0, hc0, hc0e⟩ := h2
      exact ⟨c0, List.mem_cons_of_mem _ hc0, hc0e⟩

theorem cloneGroups_count (env : GenEnv) (ra : String) (bs : Nat) (hbs : 0 < bs)
    (items : List (String × String)) (cfgs : List (String × String × String))
    (hreg : ∀ c ∈ cfgs, (env.providers.lookup c.1).isSome = true)
    (acc : RunAcc) (hg : accGood acc) :
    accGood ((groupByProvider cfgs).foldl
      (processGroupClone env true ra bs items) acc) ∧
    accCount ((groupByProvider cfgs).foldl
      (processGroupClone env true ra bs items) acc) =
      accCount acc + cfgs.length * (items.countP (fun it => !(isBlank it.2))) := by
  have h := foldl_good_sum
    (processGroupClone env true ra bs items)
    (fun g => g.2.length * (items.countP (fun it => !(isBlank it.2))))
    (groupByProvider cfgs)
    (by
      intro a g hgm hga
      obtain ⟨c, hc, hce⟩ := mem_groupByProvider_name cfgs g hgm
      obtain ⟨prov, hprov⟩ := Option.isSome_iff_exists.mp (hreg c hc)
      exact processGroupClone_count env ra bs hbs items g prov
        (by rw [hce]; exact hprov) a hga)
    acc hg
  refine ⟨h.1, ?_⟩
  rw [h.2]
  congr 1
  rw [List.sum_map_mul_right]
  have : ((groupByProvider cfgs).map (fun g => g.2.length)).sum = cfgs.length :=
    groupSizes_groupByProvider cfgs
  rw [this]

/-! ### The duplicate-skip path -/

/-- The ledger path `create_output_directory` resolves for a combination. -/
def metadataPathOf (base provider model voice : String) : String :=
  pathJoin (pathJoin (pathJoin (pathJoin base provider) model) voice) "metadata.tsv"

theorem wavExists_congr (st1 st2 : DMState) (h : st1.wavs = st2.wavs) (p : String) :
    wavExists st1 p = wavExists st2 p := by
  unfold wavExists
  rw [h]

theorem synthesize_single_skip (env : GenEnv) (st : DMState)
    (text_id text p m v : String) (prov : Provider)
    (hp : env.providers.lookup p = some prov)
    (hx : wavExists st (derivedAudioPath env.base_dir p m v text_id text) = true) :
    (synthesize_single_text env st text_id text p m v).1.success = true ∧
    (synthesize_single_text env st text_id text p m v).1.skipped_duplicate = true ∧
    (synthesize_single_text env st text_id text p m v).1.duration = 0 ∧
    (synthesize_single_text env st text_id text p m v).2.2 = [] ∧
    (synthesize_single_text env st text_id text p m v).2.1.wavs = st.wavs := by
  unfold synthesize_single_text
  rw [hp]
  have hx1 : wavExists (create_output_directory env.base_dir st p m v).2.2
      (pathJoin (create_output_directory env.base_dir st p m v).1
        (audioFileName text_id text)) = true := by
    rw [wavExists_congr _ st (wavs_create_output_directory env.base_dir st p m v)]
    exact hx
  simp only [hx1, if_true]
  refine ⟨by trivial, by trivial, by trivial, by trivial, ?_⟩
  rw [wavs_add_metadata_entry]
  exact wavs_create_output_directory env.base_dir st p m v

theorem clone_single_skip (env : GenEnv) (st : DMState)
    (text_id text p ra v : String) (model? : Option String) (prov : Provider)
    (hp : env.providers.lookup p = some prov)
    (hx : wavExists st (derivedAudioPath env.base_dir p
      (cloneModelDefault model? ra) v text_id text) = true) :
    (clone_single_text env st text_id text p ra v model?).1.success = true ∧
    (clone_single_text env st text_id text p ra v model?).1.skipped_duplicate = true ∧
    (clone_single_text env st text_id text p ra v model?).1.duration = 0 ∧
    (clone_single_text env st text_id text p ra v model?).2.2 = [] ∧
    (clone_single_text env st text_id text p ra v model?).2.1.wavs = st.wavs := by
  unfold clone_single_text
  rw [hp]
  have hx1 : wavExists
      (create_output_directory env.base_dir st p (cloneModelDefault model? ra) v).2.2
      (pathJoin
        (create_output_directory env.base_dir st p (cloneModelDefault model? ra) v).1
        (audioFileName text_id text)) = true := by
    rw [wavExists_congr _ st (wavs_create_output_directory env.base_dir st _ _ v)]
    exact hx
  simp only [hx1, if_true]
  exact ⟨by trivial, by trivial, by trivial, by trivial,
    wavs_create_output_directory env.base_dir st p (cloneModelDefault model? ra) v⟩

/-- Whether a result was a duplicate skip. -/
def GenResult.skipped : GenResult → Bool
  | .synth r => r.skipped_duplicate
  | .clone r => r.skipped_duplicate

/-- Invariant of a synthesize run over an already fully-populated output
tree: no file has been added, nothing failed or aborted, no capability has
been called, every outcome so far is a duplicate-skip success. -/
def skipInv (st : DMState) (acc : RunAcc) : Prop :=
  acc.dm.wavs = st.wavs ∧ acc.aborted = false ∧ acc.calls = [] ∧ acc.errors = [] ∧
  ∀ g ∈ acc.results, GenResult.skipped g = true ∧ GenResult.success g = true

theorem skipInv_init (st : DMState) : skipInv st (initAcc st) := by
  refine ⟨rfl, rfl, rfl, rfl, ?_⟩
  intro g hg
  simp [initAcc] at hg

theorem processPairSynth_skip (env : GenEnv) (coe : Bool) (st : DMState)
    (cfg : String × String × String) (text_id text : String) (prov : Provider)
    (hp : env.providers.lookup cfg.1 = some prov)
    (hx : wavExists st
      (derivedAudioPath env.base_dir cfg.1 cfg.2.1 cfg.2.2 text_id text) = true)
    (acc : RunAcc) (hinv : skipInv st acc) :
    skipInv st (processPairSynth env coe cfg text_id text acc) := by
  obtain ⟨hwav, hab, hcalls, herr, hres⟩ := hinv
  have hx2 : wavExists acc.dm
      (derivedAudioPath env.base_dir cfg.1 cfg.2.1 cfg.2.2 text_id text) = true := by
    rw [wavExists_congr _ st hwav]
    exact hx
  obtain ⟨hsucc, hskip, _, hcs, hw⟩ :=
    synthesize_single_skip env acc.dm text_id text cfg.1 cfg.2.1 cfg.2.2 prov hp hx2
  unfold processPairSynth
  simp only [hab, Bool.false_eq_true, if_false, hsucc, if_true]
  refine ⟨?_, by trivial, ?_, herr, ?_⟩
  · rw [hw]; exact hwav
  · rw [hcs, hcalls]; rfl
  · intro g hg
    rcases List.mem_append.mp hg with h | h
    · exact hres g h
    · simp at h
      subst h
      exact ⟨by simpa [GenResult.skipped] using hskip,
        by simpa [GenResult.success] using hsucc⟩

theorem runSynthBatches_skip (env : GenEnv) (coe : Bool) (st : DMState)
    (cfgs : List (String × String × String)) (bs : Nat) (hbs : 0 < bs)
    (items : List (String × String))
    (hreg : ∀ c ∈ cfgs, (env.providers.lookup c.1).isSome = true)
    (hx : ∀ it ∈ items, ¬(isBlank it.2 = true) → ∀ c ∈ cfgs,
      wavExists st
        (derivedAudioPath env.base_dir c.1 c.2.1 c.2.2 it.1 it.2) = true) :
    skipInv st (runSynthBatches env coe cfgs (chunkList bs items) (initAcc st)) := by
  rw [runSynthBatches_eq_items env coe cfgs bs hbs,
    items_foldl_eq_pairStream]
  have hmem : ∀ pc ∈ pairStreamSynth items cfgs,
      (∃ prov, env.providers.lookup pc.2.1 = some prov) ∧
      wavExists st (derivedAudioPath env.base_dir pc.2.1 pc.2.2.1 pc.2.2.2
        pc.1.1 pc.1.2) = true := by
    intro pc hpc
    unfold pairStreamSynth at hpc
    rw [List.mem_flatMap] at hpc
    obtain ⟨it, hit, hpc2⟩ := hpc
    rw [List.mem_map] at hpc2
    obtain ⟨c, hc, hce⟩ := hpc2
    rw [List.mem_filter] at hit
    subst hce
    refine ⟨Option.isSome_iff_exists.mp (hreg c hc), ?_⟩
    exact hx it hit.1 (by simpa using hit.2) c hc
  have : ∀ (l : List ((String × String) × String × String × String)),
      (∀ pc ∈ l, (∃ prov, env.providers.lookup pc.2.1 = some prov) ∧
        wavExists st (derivedAudioPath env.base_dir pc.2.1 pc.2.2.1 pc.2.2.2
          pc.1.1 pc.1.2) = true) →
      ∀ acc, skipInv st acc →
        skipInv st (l.foldl
          (fun a pc => processPairSynth env coe pc.2 pc.1.1 pc.1.2 a) acc) := by
    intro l
    induction l with
    | nil => intro _ acc ha; simpa using ha
    | cons pc t ih =>
      intro hl acc ha
      obtain ⟨⟨prov, hprov⟩, hxp⟩ := hl pc (List.mem_cons_self pc t)
      rw [List.foldl_cons]
      exact ih (fun pc2 h2 => hl pc2 (List.mem_cons_of_mem pc h2)) _
        (processPairSynth_skip env coe st pc.2 pc.1.1 pc.1.2 prov hprov hxp acc ha)
  exact this (pairStreamSynth items cfgs) hmem (initAcc st) (skipInv_init st)

/-! ### Sanitization lemmas -/

theorem mem_pyStrip (l : List Char) (c : Char) (h : c ∈ pyStrip l) : c ∈ l := by
  unfold pyStrip at h
  rw [List.mem_reverse] at h
  have h2 := ((List.dropWhile_suffix pyWhitespace).sublist).mem h
  rw [List.mem_reverse] at h2
  exact ((List.dropWhile_suffix pyWhitespace).sublist).mem h2

theorem mem_collapseGo (c : Char) :
    ∀ (fuel : Nat) (l : List Char), c ∈ collapseGo fuel l → c = '_' ∨ c ∈ l := by
  intro fuel
  induction fuel with
  | zero => intro l h; simp [collapseGo] at h
  | succ fuel ih =>
    intro l h
    cases l with
    | nil => simp [collapseGo] at h
    | cons a t =>
      rw [collapseGo] at h
      by_cases hw : pyWhitespace a
      · simp only [hw, if_true] at h
        rcases List.mem_cons.mp h with h2 | h2
        · left; exact h2
        · rcases ih _ h2 with h3 | h3
          · left; exact h3
          · right
            exact List.mem_cons_of_mem a
              (((List.dropWhile_suffix pyWhitespace).sublist).mem h3)
      · simp only [hw, Bool.false_eq_true, if_false] at h
        rcases List.mem_cons.mp h with h2 | h2
        · right; rw [h2]; exact List.mem_cons_self a t
        · rcases ih _ h2 with h3 | h3
          · left; exact h3
          · right; exact List.mem_cons_of_mem a h3

theorem collapseGo_no_ws (c : Char) :
    ∀ (fuel : Nat) (l : List Char), c ∈ collapseGo fuel l →
      pyWhitespace c = false := by
  intro fuel
  induction fuel with
  | zero => intro l h; simp [collapseGo] at h
  | succ fuel ih =>
    intro l h
    cases l with
    | nil => simp [collapseGo] at h
    | cons a t =>
      rw [collapseGo] at h
      by_cases hw : pyWhitespace a
      · simp only [hw, if_true] at h
        rcases List.mem_cons.mp h with h2 | h2
        · rw [h2]; rfl
        · exact ih _ h2
      · simp only [hw, Bool.false_eq_true, if_false] at h
        rcases List.mem_cons.mp h with h2 | h2
        · rw [h2]; exact Bool.not_eq_true _ ▸ (by simpa using hw)
        · exact ih _ h2

theorem sanitize_no_hostile_no_ws (t : String) (c : Char)
    (h : c ∈ (_sanitize_filename t).data) :
    hostileChar c = false ∧ pyWhitespace c = false := by
  have hbase : ∀ d ∈ collapseWhitespace (pyStrip (t.data.filter
      (fun x => !(hostileChar x)))), hostileChar d = false ∧ pyWhitespace d = false := by
    intro d hd
    unfold collapseWhitespace at hd
    refine ⟨?_, collapseGo_no_ws d _ _ hd⟩
    rcases mem_collapseGo d _ _ hd with h2 | h2
    · rw [h2]; rfl
    · have := mem_pyStrip _ d h2
      rw [List.mem_filter] at this
      simpa using this.2
  unfold _sanitize_filename at h
  by_cases hlong : (String.mk (collapseWhitespace (pyStrip (t.data.filter
      (fun x => !(hostileChar x)))))).length > 50
  · simp only [hlong, if_true] at h
    rw [String.data_append] at h
    rcases List.mem_append.mp h with h2 | h2
    · exact hbase c (((List.take_sublist 47 _)).mem (by simpa using h2))
    · have : c ∈ ['.', '.', '.'] := by simpa using h2
      simp at this
      rw [this]
      exact ⟨rfl, rfl⟩
  · simp only [hlong, if_false] at h
    exact hbase c (by simpa using h)

theorem sanitize_length_le (t : String) : (_sanitize_filename t).length ≤ 50 := by
  unfold _sanitize_filename
  by_cases hlong : (String.mk (collapseWhitespace (pyStrip (t.data.filter
      (fun x => !(hostileChar x)))))).length > 50
  · simp only [hlong, if_true]
    rw [String.length_append]
    have : (String.mk ((collapseWhitespace (pyStrip (t.data.filter
        (fun x => !(hostileChar x))))).take 47)).length ≤ 47 := by
      show (List.take 47 _).length ≤ 47
      exact List.length_take_le 47 _
    have h3 : ("..." : String).length = 3 := rfl
    omega
  · simp only [hlong, if_false]
    omega

/-! ### Fallible ledger I/O: failed appends never change an item's result -/

theorem wavs_initialize_metadata_file_fallible (o : FSOracle) (st : DMState)
    (f : String) (cols : List String) :
    (initialize_metadata_file_fallible o st f cols).2.wavs = st.wavs := by
  unfold initialize_metadata_file_fallible
  by_cases h : (st.ledgers.lookup f).isSome
  · simp [h]
  · cases hw : o.header_write_raises <;> simp [h, hw]

theorem create_output_directory_eq (base : String) (st : DMState) (p m v : String) :
    create_output_directory base st p m v =
      (pathJoin (pathJoin (pathJoin (pathJoin base p) m) v) "wav",
        pathJoin (pathJoin (pathJoin (pathJoin base p) m) v) "metadata.tsv",
        (initialize_metadata_file st
          (pathJoin (pathJoin (pathJoin (pathJoin base p) m) v) "metadata.tsv")
          synthesizeColumns).2) := rfl

/-- As long as `ensure_location` itself succeeds, ledger I/O failures (line
count read, row append, header write — all swallowed by the ledger manager)
leave both the returned `SynthesisResult` and the capability-call trace of
`synthesize_single_text` exactly as they are under clean I/O. -/
theorem synthesize_single_text_fallible_result (o : FSOracle) (env : GenEnv)
    (st : DMState) (text_id text p m v : String)
    (hm : o.mkdir_raises = none) :
    (synthesize_single_text_fallible o env st text_id text p m v).1 =
      (synthesize_single_text env st text_id text p m v).1 ∧
    (synthesize_single_text_fallible o env st text_id text p m v).2.2 =
      (synthesize_single_text env st text_id text p m v).2.2 := by
  have hcod : create_output_directory_fallible o env.base_dir st p m v =
      .ok (pathJoin (pathJoin (pathJoin (pathJoin env.base_dir p) m) v) "wav",
        pathJoin (pathJoin (pathJoin (pathJoin env.base_dir p) m) v) "metadata.tsv",
        (initialize_metadata_file_fallible o st
          (pathJoin (pathJoin (pathJoin (pathJoin env.base_dir p) m) v)
            "metadata.tsv") synthesizeColumns).2) := by
    unfold create_output_directory_fallible
    rw [hm]
  unfold synthesize_single_text_fallible synthesize_single_text
  cases hp : env.providers.lookup p with
  | none => exact ⟨rfl, rfl⟩
  | some prov =>
    cases hcod2 : create_output_directory_fallible o env.base_dir st p m v with
    | error e =>
      rw [hcod] at hcod2
      exact absurd hcod2 (by simp)
    | ok out =>
      rw [hcod] at hcod2
      injection hcod2 with hout
      subst hout
      rw [create_output_directory_eq]
      simp only [wavExists, wavSize, wavs_initialize_metadata_file_fallible,
        wavs_initialize_metadata_file]
      by_cases hx : (st.wavs.lookup (pathJoin
          (pathJoin (pathJoin (pathJoin (pathJoin env.base_dir p) m) v) "wav")
          (audioFileName text_id text))).isSome = true
      · simp only [hx, if_true]
        exact ⟨by trivial, by trivial⟩
      · simp only [hx, Bool.false_eq_true, if_false]
        cases hsm : prov.synthMeta text v with
        | error e2 => exact ⟨by trivial, by trivial⟩
        | ok mm =>
          by_cases hms : mm.success
          · simp only [hms, if_true]
            exact ⟨by trivial, by trivial⟩
          · simp only [hms, Bool.false_eq_true, if_false]
            exact ⟨by trivial, by trivial⟩

/-- The clone analog: with `ensure_location` succeeding, ledger I/O failures
leave `clone_single_text`'s result and call trace unchanged. -/
theorem clone_single_text_fallible_result (o : FSOracle) (env : GenEnv)
    (st : DMState) (text_id text p ra v : String) (model? : Option String)
    (hm : o.mkdir_raises = none) :
    (clone_single_text_fallible o env st text_id text p ra v model?).1 =
      (clone_single_text env st text_id text p ra v model?).1 ∧
    (clone_single_text_fallible o env st text_id text p ra v model?).2.2 =
      (clone_single_text env st text_id text p ra v model?).2.2 := by
  have hcod : create_output_directory_fallible o env.base_dir st p
      (cloneModelDefault model? ra) v =
      .ok (pathJoin (pathJoin (pathJoin (pathJoin env.base_dir p)
          (cloneModelDefault model? ra)) v) "wav",
        pathJoin (pathJoin (pathJoin (pathJoin env.base_dir p)
          (cloneModelDefault model? ra)) v) "metadata.tsv",
        (initialize_metadata_file_fallible o st
          (pathJoin (pathJoin (pathJoin (pathJoin env.base_dir p)
            (cloneModelDefault model? ra)) v) "metadata.tsv")
          synthesizeColumns).2) := by
    unfold create_output_directory_fallible
    rw [hm]
  unfold clone_single_text_fallible clone_single_text
  cases hp : env.providers.lookup p with
  | none => exact ⟨rfl, rfl⟩
  | some prov =>
    simp only [hcod, create_output_directory_eq, wavExists, wavSize,
      wavs_initialize_metadata_file_fallible, wavs_initialize_metadata_file]
    by_cases hx : (st.wavs.lookup (pathJoin
        (pathJoin (pathJoin (pathJoin (pathJoin env.base_dir p)
          (cloneModelDefault model? ra)) v) "wav")
        (audioFileName text_id text))).isSome = true
    · simp only [hx, if_true]
      exact ⟨by trivial, by trivial⟩
    · simp only [hx, Bool.false_eq_true, if_false]
      cases hsm : prov.cloneMeta text ra with
      | error e2 => exact ⟨by trivial, by trivial⟩
      | ok mm =>
        by_cases hms : mm.success
        · simp only [hms, if_true]
          exact ⟨by trivial, by trivial⟩
        · simp only [hms, Bool.false_eq_true, if_false]
          exact ⟨by trivial, by trivial⟩

/-! ### Demo fixtures used by the concrete evaluations -/

/-- A backend whose calls always succeed. -/
def okProvider : Provider :=
  { sample_rate := 22050, is_selenium := false,
    synthMeta := fun _ _ =>
      .ok { success := true, error := none, estimated_duration := 1, file_size := 100 },
    cloneMeta := fun _ _ =>
      .ok { success := true, error := none, estimated_duration := 1, file_size := 100,
            audio_url := "http://a", clone_id := some "c1" } }

/-- A selenium-flagged backend whose calls always succeed. -/
def selProvider : Provider :=
  { okProvider with is_selenium := true }

/-- Environment with a plain backend `gtts` and a selenium backend `mm`. -/
def demoEnv : GenEnv :=
  { base_dir := "out", now := "2026-10-12 00:00:00",
    providers := [("gtts", okProvider), ("mm", selProvider)],
    fs_files := ["ref.wav"], hashString := fun _ => 0 }

/-- `summary.results` keyed by `(text, model)`, for order comparisons;
`[]` when the run raised. -/
def resultKey : GenResult → String × String
  | .synth r => (r.text, r.model)
  | .clone r => (r.text, r.model)

def runResultKeys
    (r : Except PyErr (BatchGenerationSummary × DMState × List CapCall)) :
    List (String × String) :=
  match r with
  | .ok x => x.1.results.map resultKey
  | .error _ => []

def runErrors
    (r : Except PyErr (BatchGenerationSummary × DMState × List CapCall)) :
    List String :=
  match r with
  | .ok x => x.1.errors
  | .error _ => []

def runSuccessful
    (r : Except PyErr (BatchGenerationSummary × DMState × List CapCall)) : Nat :=
  match r with
  | .ok x => x.1.successful_generations
  | .error _ => 0

def runFailed
    (r : Except PyErr (BatchGenerationSummary × DMState × List CapCall)) : Nat :=
  match r with
  | .ok x => x.1.failed_generations
  | .error _ => 0

def runTotal
    (r : Except PyErr (BatchGenerationSummary × DMState × List CapCall)) : Nat :=
  match r with
  | .ok x => x.1.total_texts
  | .error _ => 0

/-- A state whose output tree already holds the audio file and ledger that
the combination (gtts, m, v) with item ("1", "hi") resolves to. -/
def dupState : DMState :=
  { ledgers := [("out/gtts/m/v/metadata.tsv", [synthesizeColumns.map Field.str])],
    wavs := [("out/gtts/m/v/wav/1_hi.wav", 5)] }

/-! ## Claims -/

set_option maxRecDepth 10000 in
/-- C1, counterexample: with one non-blank item and one configuration naming
an unregistered provider (`continue_on_error=false`), the failing attempt
contributes NO `GenerationOutcome` to the summary's outcome list — the
failure is recorded only as error strings, of which this single attempt
produces three — so `successful + failed = 3 ≠ 1 =` the number of non-blank
attempts.  This refutes both halves of the claim as stated. -/
theorem C1_failure_outcome_counterexample :
    runResultKeys (synthesize_from_text_list demoEnv DMState.empty
      [("1", "hello")] [("nope", "m", "v")] 10 false) = [] ∧
    runSuccessful (synthesize_from_text_list demoEnv DMState.empty
      [("1", "hello")] [("nope", "m", "v")] 10 false) = 0 ∧
    runFailed (synthesize_from_text_list demoEnv DMState.empty
      [("1", "hello")] [("nope", "m", "v")] 10 false) = 3 ∧
    ¬(0 + 3 = 1) := by
  decide

/-- C1, amended: each non-blank (item, configuration) pair of a run with
`continue_on_error=true` (and, for clone, with every referenced provider
registered) contributes exactly one record to the summary — a success or
duplicate-skip outcome appended to the outcome list, or exactly one error
string; failure outcomes never enter the outcome list (so `successful`
equals the length of the outcome list), and
`successful + failed = count of non-blank (item, configuration) attempts`
for both batch operations. -/
theorem C1_one_record_per_attempt :
    (∀ (env : GenEnv) (st : DMState) (items : List (String × String))
        (cfgs : List (String × String × String)) (bs : Nat),
      0 < bs → items ≠ [] → cfgs ≠ [] →
      ∃ s st1 cs,
        synthesize_from_text_list env st items cfgs bs true = .ok (s, st1, cs) ∧
        s.successful_generations + s.failed_generations =
          (items.countP (fun it => !(isBlank it.2))) * cfgs.length ∧
        s.successful_generations = s.results.length) ∧
    (∀ (env : GenEnv) (st : DMState) (items : List (String × String))
        (cfgs : List (String × String × String)) (bs : Nat) (ra : String),
      0 < bs → items ≠ [] → cfgs ≠ [] → ra ≠ "" →
      env.fs_files.contains ra = true →
      (∀ c ∈ cfgs, (env.providers.lookup c.1).isSome = true) →
      ∃ s st1 cs,
        clone_from_text_list env st items cfgs (some ra) bs true = .ok (s, st1, cs) ∧
        s.successful_generations + s.failed_generations =
          (items.countP (fun it => !(isBlank it.2))) * cfgs.length ∧
        s.successful_generations = s.results.length) := by
  constructor
  · intro env st items cfgs bs hbs hi hc
    have hie : items.isEmpty = false := by simpa [List.isEmpty_iff] using hi
    have hce : cfgs.isEmpty = false := by simpa [List.isEmpty_iff] using hc
    have hbs' : ¬(bs = 0) := Nat.pos_iff_ne_zero.mp hbs
    unfold synthesize_from_text_list
    simp only [hie, hce, hbs', Bool.false_eq_true, if_false]
    refine ⟨_, _, _, rfl, ?_, ?_⟩
    · have h1 := runSynthBatches_eq_items env true cfgs bs hbs items (initAcc st)
      have h2 := runSynthItems_count env cfgs items (initAcc st) (accGood_init st)
      rw [h1]
      obtain ⟨⟨hab, hres⟩, hcnt⟩ := h2
      rw [List.filter_eq_self.mpr hres]
      simpa [accCount, initAcc] using hcnt
    · have h1 := runSynthBatches_eq_items env true cfgs bs hbs items (initAcc st)
      have h2 := runSynthItems_count env cfgs items (initAcc st) (accGood_init st)
      rw [h1]
      obtain ⟨⟨hab, hres⟩, hcnt⟩ := h2
      rw [List.filter_eq_self.mpr hres]
  · intro env st items cfgs bs ra hbs hi hc hra hraf hreg
    have hie : items.isEmpty = false := by simpa [List.isEmpty_iff] using hi
    have hce : cfgs.isEmpty = false := by simpa [List.isEmpty_iff] using hc
    unfold clone_from_text_list
    simp only [hie, hce, hra, hraf, Bool.false_eq_true, if_false,
      Bool.not_true, Bool.or_false, Bool.false_or]
    refine ⟨_, _, _, rfl, ?_, ?_⟩
    · have h2 := cloneGroups_count env ra bs hbs items cfgs hreg (initAcc st)
        (accGood_init st)
      obtain ⟨⟨hab, hres⟩, hcnt⟩ := h2
      rw [List.filter_eq_self.mpr hres, Nat.mul_comm]
      simpa [accCount, initAcc] using hcnt
    · have h2 := cloneGroups_count env ra bs hbs items cfgs hreg (initAcc st)
        (accGood_init st)
      obtain ⟨⟨hab, hres⟩, hcnt⟩ := h2
      rw [List.filter_eq_self.mpr hres]

set_option maxRecDepth 10000 in
/-- C1, witness: the amended theorem applied to one synthesize run and one
clone run with concrete inputs. -/
theorem C1_one_record_per_attempt_witness :
    (∃ s st1 cs,
      synthesize_from_text_list demoEnv DMState.empty [("1", "hello")]
        [("gtts", "m", "v")] 10 true = .ok (s, st1, cs) ∧
      s.successful_generations + s.failed_generations =
        ([("1", "hello")].countP (fun it => !(isBlank it.2))) *
          [("gtts", "m", "v")].length ∧
      s.successful_generations = s.results.length) ∧
    (∃ s st1 cs,
      clone_from_text_list demoEnv DMState.empty [("1", "a")]
        [("mm", "r1", "v")] (some "ref.wav") 10 true = .ok (s, st1, cs) ∧
      s.successful_generations + s.failed_generations =
        ([("1", "a")].countP (fun it => !(isBlank it.2))) *
          [("mm", "r1", "v")].length ∧
      s.successful_generations = s.results.length) :=
  ⟨C1_one_record_per_attempt.1 demoEnv DMState.empty [("1", "hello")]
      [("gtts", "m", "v")] 10 (by decide) (by decide) (by decide),
    C1_one_record_per_attempt.2 demoEnv DMState.empty [("1", "a")]
      [("mm", "r1", "v")] 10 "ref.wav" (by decide) (by decide) (by decide)
      (by decide) (by decide) (by decide)⟩

/-- C2: when the derived audio path already exists, both single-item
operations return a success outcome with `skipped_duplicate=true` and
`duration=0` without invoking the synthesis capability (empty call trace)
and without touching the audio files; consequently a synthesize batch run
against a fully populated output tree yields `skipped_duplicate=true` for
every outcome, no errors, no capability calls and zero new `.wav` files
(`skipInv`). -/
theorem C2_duplicate_skip_idempotent :
    (∀ (env : GenEnv) (st : DMState) (text_id text p m v : String)
        (prov : Provider),
      env.providers.lookup p = some prov →
      wavExists st (derivedAudioPath env.base_dir p m v text_id text) = true →
      (synthesize_single_text env st text_id text p m v).1.success = true ∧
      (synthesize_single_text env st text_id text p m v).1.skipped_duplicate = true ∧
      (synthesize_single_text env st text_id text p m v).1.duration = 0 ∧
      (synthesize_single_text env st text_id text p m v).2.2 = [] ∧
      (synthesize_single_text env st text_id text p m v).2.1.wavs = st.wavs) ∧
    (∀ (env : GenEnv) (st : DMState) (text_id text p ra v : String)
        (model? : Option String) (prov : Provider),
      env.providers.lookup p = some prov →
      wavExists st (derivedAudioPath env.base_dir p
        (cloneModelDefault model? ra) v text_id text) = true →
      (clone_single_text env st text_id text p ra v model?).1.success = true ∧
      (clone_single_text env st text_id text p ra v model?).1.skipped_duplicate = true ∧
      (clone_single_text env st text_id text p ra v model?).1.duration = 0 ∧
      (clone_single_text env st text_id text p ra v model?).2.2 = [] ∧
      (clone_single_text env st text_id text p ra v model?).2.1.wavs = st.wavs) ∧
    (∀ (env : GenEnv) (coe : Bool) (st : DMState)
        (cfgs : List (String × String × String)) (bs : Nat)
        (items : List (String × String)),
      0 < bs →
      (∀ c ∈ cfgs, (env.providers.lookup c.1).isSome = true) →
      (∀ it ∈ items, ¬(isBlank it.2 = true) → ∀ c ∈ cfgs,
        wavExists st
          (derivedAudioPath env.base_dir c.1 c.2.1 c.2.2 it.1 it.2) = true) →
      skipInv st (runSynthBatches env coe cfgs (chunkList bs items) (initAcc st))) :=
  ⟨fun env st text_id text p m v prov hp hx =>
      synthesize_single_skip env st text_id text p m v prov hp hx,
    fun env st text_id text p ra v model? prov hp hx =>
      clone_single_skip env st text_id text p ra v model? prov hp hx,
    fun env coe st cfgs bs items hbs hreg hx =>
      runSynthBatches_skip env coe st cfgs bs hbs items hreg hx⟩

set_option maxRecDepth 10000 in
/-- C2, witness: the theorem applied to a state already holding
`out/gtts/m/v/wav/1_hi.wav`, for the single synthesize step, the single
clone step, and a one-item batch. -/
theorem C2_duplicate_skip_idempotent_witness :
    ((synthesize_single_text demoEnv dupState "1" "hi" "gtts" "m" "v").1.success = true ∧
     (synthesize_single_text demoEnv dupState "1" "hi" "gtts" "m" "v").1.skipped_duplicate = true ∧
     (synthesize_single_text demoEnv dupState "1" "hi" "gtts" "m" "v").1.duration = 0 ∧
     (synthesize_single_text demoEnv dupState "1" "hi" "gtts" "m" "v").2.2 = [] ∧
     (synthesize_single_text demoEnv dupState "1" "hi" "gtts" "m" "v").2.1.wavs = dupState.wavs) ∧
    ((clone_single_text demoEnv dupState "1" "hi" "gtts" "ref.wav" "v" (some "m")).1.success = true ∧
     (clone_single_text demoEnv dupState "1" "hi" "gtts" "ref.wav" "v" (some "m")).1.skipped_duplicate = true ∧
     (clone_single_text demoEnv dupState "1" "hi" "gtts" "ref.wav" "v" (some "m")).1.duration = 0 ∧
     (clone_single_text demoEnv dupState "1" "hi" "gtts" "ref.wav" "v" (some "m")).2.2 = [] ∧
     (clone_single_text demoEnv dupState "1" "hi" "gtts" "ref.wav" "v" (some "m")).2.1.wavs = dupState.wavs) ∧
    skipInv dupState (runSynthBatches demoEnv true [("gtts", "m", "v")]
      (chunkList 1 [("1", "hi")]) (initAcc dupState)) :=
  ⟨C2_duplicate_skip_idempotent.1 demoEnv dupState "1" "hi" "gtts" "m" "v"
      okProvider rfl (by decide),
    C2_duplicate_skip_idempotent.2.1 demoEnv dupState "1" "hi" "gtts" "ref.wav"
      "v" (some "m") okProvider rfl (by decide),
    C2_duplicate_skip_idempotent.2.2 demoEnv true dupState [("gtts", "m", "v")]
      1 [("1", "hi")] (by decide) (by decide) (by decide)⟩

set_option maxRecDepth 10000 in
/-- C3: the clone path initializes its ledger with the 12-column synthesize
header, not the clone header — `clone_single_text` resolves its location via
`create_output_directory`, and the subsequently appended clone rows have 13
fields, so the file's rows do not match its own header
(`initialize_metadata_file_clone` / `create_provider_structure_clone` exist
in the source for exactly this purpose but are never called). -/
theorem C3_clone_ledger_gets_synthesize_header :
    (getLedger (clone_single_text demoEnv DMState.empty "1" "hi" "gtts"
      "ref.wav" "v" (some "r1")).2.1 "out/gtts/r1/v/metadata.tsv").isSome = true ∧
    ((getLedger (clone_single_text demoEnv DMState.empty "1" "hi" "gtts"
      "ref.wav" "v" (some "r1")).2.1 "out/gtts/r1/v/metadata.tsv").getD []).length = 2 ∧
    ((getLedger (clone_single_text demoEnv DMState.empty "1" "hi" "gtts"
      "ref.wav" "v" (some "r1")).2.1 "out/gtts/r1/v/metadata.tsv").getD []).headD []
      = synthesizeColumns.map Field.str ∧
    (((getLedger (clone_single_text demoEnv DMState.empty "1" "hi" "gtts"
      "ref.wav" "v" (some "r1")).2.1 "out/gtts/r1/v/metadata.tsv").getD []).getLastD []).length = 13 ∧
    synthesizeColumns.length = 12 ∧
    cloneColumns.length = 13 ∧
    ¬(synthesizeColumns = cloneColumns) := by
  decide

/-- C4: every append computes `utt_id` as the current non-header line count
plus one (rendered `%03d`), substitutes the heuristic duration
`len(text)/12` clamped to `[0.5, 10.0]` exactly when the caller supplied
none, and appends exactly one row that carries the timestamp — for both the
synthesize-schema and the clone-schema append. -/
theorem C4_append_record_utt_and_duration :
    (∀ (now : String) (st : DMState) (f text ap p m v tt : String) (sr : Nat)
        (dur : Option Rat) (tid : Option String),
      (add_metadata_entry now st f text ap p m v tt sr dur tid).1 = true ∧
      getLedger (add_metadata_entry now st f text ap p m v tt sr dur tid).2 f =
        some (((getLedger st f).getD []) ++
          [[Field.str (fmt3 (nonHeaderCount st f + 1)), Field.str (tid.getD ""),
            Field.str text, Field.str ap, Field.str p, Field.str m, Field.str v,
            Field.str tt, Field.str (toString sr), Field.str "vi",
            Field.rat (dur.getD (max ((1 : Rat) / 2)
              (min 10 ((text.length : Rat) / 12)))),
            Field.str now]])) ∧
    (∀ (now : String) (st : DMState) (f text ap p ra tt : String) (sr : Nat)
        (dur : Option Rat) (tid au ci : Option String),
      (add_metadata_entry_clone now st f text ap p ra tt sr dur tid au ci).1 = true ∧
      getLedger (add_metadata_entry_clone now st f text ap p ra tt sr dur tid au ci).2 f =
        some (((getLedger st f).getD []) ++
          [[Field.str (fmt3 (nonHeaderCount st f + 1)), Field.str (tid.getD ""),
            Field.str text, Field.str ap, Field.str p, Field.str ra,
            Field.str tt, Field.str (toString sr), Field.str "vi",
            Field.rat (dur.getD (max ((1 : Rat) / 2)
              (min 10 ((text.length : Rat) / 12)))),
            Field.str now, Field.str (au.getD ""), Field.str (ci.getD "")]])) :=
  ⟨fun _ st f _ _ _ _ _ _ _ _ _ =>
      ⟨rfl, getLedger_appendRowToFile st f _⟩,
    fun _ st f _ _ _ _ _ _ _ _ _ _ =>
      ⟨rfl, getLedger_appendRowToFile st f _⟩⟩

/-- C5, counterexample: `generate_from_text_list` with an empty input list
returns an all-zero summary without raising — it does not raise on empty
input, and the empty-input check even precedes operation validation (here
the operation name is invalid and still no error is raised). -/
theorem C5_empty_input_counterexample :
    generate_from_text_list demoEnv DMState.empty [] [("gtts", "m", "v")] 10
      true "bogus" none = .ok (emptySummary, DMState.empty, []) := by
  rfl

/-- C5, amended: an invalid operation name and a missing or non-existent
reference audio for a clone run each make the batch entry point return an
error immediately — before any item is processed and before any synthesis
capability is invoked (the error return carries no summary, state change or
capability call) — and `clone_from_text_list` itself re-checks the
reference; an empty input list, however, does not raise: it returns an
all-zero summary at once (checked before every other validation). -/
theorem C5_precondition_errors :
    (∀ (env : GenEnv) (st : DMState) (items : List (String × String))
        (cfgs : List (String × String × String)) (bs : Nat) (coe : Bool)
        (tt : String) (ra : Option String),
      items ≠ [] → cfgs ≠ [] →
      pyLower tt ≠ "synthesize" → pyLower tt ≠ "clone" →
      generate_from_text_list env st items cfgs bs coe tt ra =
        .error (PyErr.valueError
          ("Invalid tts_type: " ++ pyLower tt ++
            ". Must be 'synthesize' or 'clone'"))) ∧
    (∀ (env : GenEnv) (st : DMState) (items : List (String × String))
        (cfgs : List (String × String × String)) (bs : Nat) (coe : Bool),
      items ≠ [] → cfgs ≠ [] →
      generate_from_text_list env st items cfgs bs coe "clone" none =
        .error (PyErr.valueError
          "reference_audio is required for clone operations")) ∧
    (∀ (env : GenEnv) (st : DMState) (items : List (String × String))
        (cfgs : List (String × String × String)) (bs : Nat) (coe : Bool)
        (ra : String),
      items ≠ [] → cfgs ≠ [] → ra ∉ env.fs_files →
      generate_from_text_list env st items cfgs bs coe "clone" (some ra) =
        .error (PyErr.fileNotFoundError
          ("Reference audio file not found: " ++ ra))) ∧
    (∀ (env : GenEnv) (st : DMState) (items : List (String × String))
        (cfgs : List (String × String × String)) (bs : Nat) (coe : Bool),
      clone_from_text_list env st items cfgs none bs coe =
        .error (PyErr.valueError
          "reference_audio is required and must exist for clone operations")) ∧
    (∀ (env : GenEnv) (st : DMState)
        (cfgs : List (String × String × String)) (bs : Nat) (coe : Bool)
        (tt : String) (ra : Option String),
      generate_from_text_list env st [] cfgs bs coe tt ra =
        .ok (emptySummary, st, [])) := by
  refine ⟨?_, ?_, ?_, ?_, ?_⟩
  · intro env st items cfgs bs coe tt ra hi hc h1 h2
    have hie : items.isEmpty = false := by simpa [List.isEmpty_iff] using hi
    have hce : cfgs.isEmpty = false := by simpa [List.isEmpty_iff] using hc
    unfold generate_from_text_list
    simp [hie, hce, h1, h2]
  · intro env st items cfgs bs coe hi hc
    have hie : items.isEmpty = false := by simpa [List.isEmpty_iff] using hi
    have hce : cfgs.isEmpty = false := by simpa [List.isEmpty_iff] using hc
    have ht : pyLower "clone" = "clone" := by decide
    unfold generate_from_text_list
    simp [hie, hce, ht]
  · intro env st items cfgs bs coe ra hi hc hra
    have hie : items.isEmpty = false := by simpa [List.isEmpty_iff] using hi
    have hce : cfgs.isEmpty = false := by simpa [List.isEmpty_iff] using hc
    have ht : pyLower "clone" = "clone" := by decide
    unfold generate_from_text_list
    simp [hie, hce, hra, ht]
  · intro env st items cfgs bs coe
    rfl
  · intro env st cfgs bs coe tt ra
    rfl

/-- C5, witness: the amended theorem applied to concrete runs — an invalid
operation name, a clone run without reference audio, a clone run whose
reference audio does not exist, and an empty input list. -/
theorem C5_precondition_errors_witness :
    generate_from_text_list demoEnv DMState.empty [("1", "hi")]
      [("gtts", "m", "v")] 10 true "Bogus" none =
      .error (PyErr.valueError
        ("Invalid tts_type: " ++ pyLower "Bogus" ++
          ". Must be 'synthesize' or 'clone'")) ∧
    generate_from_text_list demoEnv DMState.empty [("1", "hi")]
      [("gtts", "m", "v")] 10 true "clone" none =
      .error (PyErr.valueError
        "reference_audio is required for clone operations") ∧
    generate_from_text_list demoEnv DMState.empty [("1", "hi")]
      [("gtts", "m", "v")] 10 true "clone" (some "missing.wav") =
      .error (PyErr.fileNotFoundError
        ("Reference audio file not found: " ++ "missing.wav")) ∧
    clone_from_text_list demoEnv DMState.empty [("1", "hi")]
      [("gtts", "m", "v")] none 10 true =
      .error (PyErr.valueError
        "reference_audio is required and must exist for clone operations") ∧
    generate_from_text_list demoEnv DMState.empty [] [("gtts", "m", "v")] 10
      true "synthesize" none = .ok (emptySummary, DMState.empty, []) :=
  ⟨C5_precondition_errors.1 demoEnv DMState.empty [("1", "hi")]
      [("gtts", "m", "v")] 10 true "Bogus" none (by decide) (by decide)
      (by decide) (by decide),
    C5_precondition_errors.2.1 demoEnv DMState.empty [("1", "hi")]
      [("gtts", "m", "v")] 10 true (by decide) (by decide),
    C5_precondition_errors.2.2.1 demoEnv DMState.empty [("1", "hi")]
      [("gtts", "m", "v")] 10 true "missing.wav" (by decide) (by decide)
      (by decide),
    C5_precondition_errors.2.2.2.1 demoEnv DMState.empty [("1", "hi")]
      [("gtts", "m", "v")] 10 true,
    C5_precondition_errors.2.2.2.2 demoEnv DMState.empty [("gtts", "m", "v")]
      10 true "synthesize" none⟩

set_option maxRecDepth 10000 in
/-- C6, counterexample: a clone run with one selenium provider, two
configurations and two text items produces its outcomes configuration-outer,
item-inner — `[(a,r1),(b,r1),(a,r2),(b,r2)]` — not in the claimed item-outer,
configuration-inner input order `[(a,r1),(a,r2),(b,r1),(b,r2)]`. -/
theorem C6_clone_order_counterexample :
    runResultKeys (clone_from_text_list demoEnv DMState.empty
      [("1", "a"), ("2", "b")] [("mm", "r1", "v"), ("mm", "r2", "v")]
      (some "ref.wav") 10 true) =
      [("a", "r1"), ("b", "r1"), ("a", "r2"), ("b", "r2")] ∧
    ¬([("a", "r1"), ("b", "r1"), ("a", "r2"), ("b", "r2")] =
      [("a", "r1"), ("a", "r2"), ("b", "r1"), ("b", "r2")]) := by
  decide

/-- C6, amended: the synthesize batch loop produces outcomes and ledger rows
in strict input-iteration order — its batched nested loops are equal to a
single fold over the item-major pair stream (non-blank text items outer, in
input order; backend configurations inner, in input order).  The clone batch
loop does NOT follow input order: it groups configurations by provider
(providers in first-appearance order) and, for selenium providers, iterates
configurations outer and items inner within each batch. -/
theorem C6_synthesize_order (env : GenEnv) (coe : Bool)
    (cfgs : List (String × String × String)) (bs : Nat)
    (items : List (String × String)) (acc : RunAcc) (hbs : 0 < bs) :
    runSynthBatches env coe cfgs (chunkList bs items) acc =
      (pairStreamSynth items cfgs).foldl
        (fun a pc => processPairSynth env coe pc.2 pc.1.1 pc.1.2 a) acc := by
  rw [runSynthBatches_eq_items env coe cfgs bs hbs, items_foldl_eq_pairStream]

/-- C6, witness: the ordering theorem applied to a concrete one-item run. -/
theorem C6_synthesize_order_witness :
    runSynthBatches demoEnv true [("gtts", "m", "v")]
      (chunkList 1 [("1", "hi")]) (initAcc DMState.empty) =
      (pairStreamSynth [("1", "hi")] [("gtts", "m", "v")]).foldl
        (fun a pc => processPairSynth demoEnv true pc.2 pc.1.1 pc.1.2 a)
        (initAcc DMState.empty) :=
  C6_synthesize_order demoEnv true [("gtts", "m", "v")] 1 [("1", "hi")]
    (initAcc DMState.empty) (by decide)

set_option maxRecDepth 10000 in
/-- C7: blank and whitespace-only text items contribute nothing to a
synthesize run — the run over the full item list is equal, in outcomes,
errors, disk state and capability calls alike, to the run over the list with
blank items removed — while `total_texts` still counts the full input list;
concretely, `[("1","hello"), ("2","")]` with one backend yields exactly one
outcome, no errors, and `total_texts = 2`. -/
theorem C7_blank_items_skipped :
    (∀ (env : GenEnv) (coe : Bool) (cfgs : List (String × String × String))
        (bs : Nat) (items : List (String × String)) (acc : RunAcc),
      0 < bs →
      runSynthBatches env coe cfgs (chunkList bs items) acc =
        runSynthBatches env coe cfgs
          (chunkList bs (items.filter (fun it => !(isBlank it.2)))) acc) ∧
    (∀ (env : GenEnv) (st : DMState) (items : List (String × String))
        (cfgs : List (String × String × String)) (bs : Nat) (coe : Bool),
      items ≠ [] → cfgs ≠ [] →
      ∃ s st1 cs, synthesize_from_text_list env st items cfgs bs coe =
        .ok (s, st1, cs) ∧ s.total_texts = items.length) ∧
    ((runResultKeys (synthesize_from_text_list demoEnv DMState.empty
        [("1", "hello"), ("2", "")] [("gtts", "m", "v")] 10 true)).length = 1 ∧
      runErrors (synthesize_from_text_list demoEnv DMState.empty
        [("1", "hello"), ("2", "")] [("gtts", "m", "v")] 10 true) = [] ∧
      runTotal (synthesize_from_text_list demoEnv DMState.empty
        [("1", "hello"), ("2", "")] [("gtts", "m", "v")] 10 true) = 2) := by
  refine ⟨?_, ?_, by decide⟩
  · intro env coe cfgs bs items acc hbs
    rw [runSynthBatches_eq_items env coe cfgs bs hbs,
      runSynthBatches_eq_items env coe cfgs bs hbs,
      items_foldl_eq_pairStream, items_foldl_eq_pairStream]
    have h : pairStreamSynth (items.filter (fun it => !(isBlank it.2))) cfgs =
        pairStreamSynth items cfgs := by
      unfold pairStreamSynth
      rw [List.filter_filter]
      simp
    rw [h]
  · intro env st items cfgs bs coe hi hc
    have hie : items.isEmpty = false := by simpa [List.isEmpty_iff] using hi
    have hce : cfgs.isEmpty = false := by simpa [List.isEmpty_iff] using hc
    unfold synthesize_from_text_list
    by_cases hbs : bs = 0
    · simp only [hie, hce, hbs, Bool.false_eq_true, if_false, if_true]
      exact ⟨_, _, _, rfl, rfl⟩
    · simp only [hie, hce, hbs, Bool.false_eq_true, if_false]
      exact ⟨_, _, _, rfl, rfl⟩

/-- C7, witness: the blank-item equality applied to the two-item scenario
with one blank item. -/
theorem C7_blank_items_skipped_witness :
    runSynthBatches demoEnv true [("gtts", "m", "v")]
      (chunkList 10 [("1", "hello"), ("2", "")]) (initAcc DMState.empty) =
      runSynthBatches demoEnv true [("gtts", "m", "v")]
        (chunkList 10 ([("1", "hello"), ("2", "")].filter
          (fun it => !(isBlank it.2)))) (initAcc DMState.empty) ∧
    (∃ s st1 cs, synthesize_from_text_list demoEnv DMState.empty
      [("1", "hello"), ("2", "")] [("gtts", "m", "v")] 10 true =
        .ok (s, st1, cs) ∧ s.total_texts = [("1", "hello"), ("2", "")].length) :=
  ⟨C7_blank_items_skipped.1 demoEnv true [("gtts", "m", "v")] 10
      [("1", "hello"), ("2", "")] (initAcc DMState.empty) (by decide),
    C7_blank_items_skipped.2.1 demoEnv DMState.empty
      [("1", "hello"), ("2", "")] [("gtts", "m", "v")] 10 true (by decide)
      (by decide)⟩

/-- C8: under fallible I/O both appends — `add_metadata_entry` and
`add_metadata_entry_clone` — return `false` and leave the ledger untouched
when the row append or the line-count read raises; their catch-alls mean no
exception escapes (they return plain pairs, and under the clean oracle they
coincide with the pure model).  `create_output_directory`, by contrast,
re-raises: a `mkdir` failure propagates to the caller as an error.  And a
ledger write failure never fails the item that triggered it: for every
oracle whose `mkdir` succeeds — whatever its read/append/header failures —
both single-item operations return the same result and capability-call trace
as under clean I/O. -/
theorem C8_ledger_io_error_handling :
    (∀ (o : FSOracle) (now : String) (st : DMState)
        (f text ap p m v tt : String) (sr : Nat) (dur : Option Rat)
        (tid : Option String) (e : String),
      o.append_raises = some e →
      add_metadata_entry_fallible o now st f text ap p m v tt sr dur tid =
        (false, st)) ∧
    (∀ (o : FSOracle) (now : String) (st : DMState)
        (f text ap p m v tt : String) (sr : Nat) (dur : Option Rat)
        (tid : Option String) (e : String),
      o.read_raises = some e → (st.ledgers.lookup f).isSome = true →
      add_metadata_entry_fallible o now st f text ap p m v tt sr dur tid =
        (false, st)) ∧
    (∀ (o : FSOracle) (now : String) (st : DMState)
        (f text ap p ra tt : String) (sr : Nat) (dur : Option Rat)
        (tid au ci : Option String) (e : String),
      o.append_raises = some e →
      add_metadata_entry_clone_fallible o now st f text ap p ra tt sr dur
        tid au ci = (false, st)) ∧
    (∀ (o : FSOracle) (now : String) (st : DMState)
        (f text ap p ra tt : String) (sr : Nat) (dur : Option Rat)
        (tid au ci : Option String) (e : String),
      o.read_raises = some e → (st.ledgers.lookup f).isSome = true →
      add_metadata_entry_clone_fallible o now st f text ap p ra tt sr dur
        tid au ci = (false, st)) ∧
    (∀ (o : FSOracle) (base : String) (st : DMState) (p m v : String)
        (e : String),
      o.mkdir_raises = some e →
      create_output_directory_fallible o base st p m v = .error e) ∧
    (∀ (now : String) (st : DMState) (f text ap p m v tt : String) (sr : Nat)
        (dur : Option Rat) (tid : Option String),
      add_metadata_entry_fallible FSOracle.clean now st f text ap p m v tt
        sr dur tid = add_metadata_entry now st f text ap p m v tt sr dur tid) ∧
    (∀ (now : String) (st : DMState) (f text ap p ra tt : String) (sr : Nat)
        (dur : Option Rat) (tid au ci : Option String),
      add_metadata_entry_clone_fallible FSOracle.clean now st f text ap p ra
        tt sr dur tid au ci =
        add_metadata_entry_clone now st f text ap p ra tt sr dur tid au ci) ∧
    (∀ (o : FSOracle) (env : GenEnv) (st : DMState)
        (text_id text p m v : String),
      o.mkdir_raises = none →
      (synthesize_single_text_fallible o env st text_id text p m v).1 =
        (synthesize_single_text env st text_id text p m v).1 ∧
      (synthesize_single_text_fallible o env st text_id text p m v).2.2 =
        (synthesize_single_text env st text_id text p m v).2.2) ∧
    (∀ (o : FSOracle) (env : GenEnv) (st : DMState)
        (text_id text p ra v : String) (model? : Option String),
      o.mkdir_raises = none →
      (clone_single_text_fallible o env st text_id text p ra v model?).1 =
        (clone_single_text env st text_id text p ra v model?).1 ∧
      (clone_single_text_fallible o env st text_id text p ra v model?).2.2 =
        (clone_single_text env st text_id text p ra v model?).2.2) := by
  refine ⟨?_, ?_, ?_, ?_, ?_, ?_, ?_, ?_, ?_⟩
  · intro o now st f text ap p m v tt sr dur tid e ha
    unfold add_metadata_entry_fallible add_metadata_entry_body
    by_cases hex : (st.ledgers.lookup f).isSome
    · cases hr : o.read_raises with
      | none => simp [hex, hr, ha]
      | some e2 => simp [hex, hr, ha, Except.bind, Bind.bind]
    · simp [hex, ha]
  · intro o now st f text ap p m v tt sr dur tid e hr hex
    unfold add_metadata_entry_fallible add_metadata_entry_body
    simp [hex, hr, Except.bind, Bind.bind]
  · intro o now st f text ap p ra tt sr dur tid au ci e ha
    unfold add_metadata_entry_clone_fallible add_metadata_entry_clone_body
    by_cases hex : (st.ledgers.lookup f).isSome
    · cases hr : o.read_raises with
      | none => simp [hex, hr, ha]
      | some e2 => simp [hex, hr, ha, Except.bind, Bind.bind]
    · simp [hex, ha]
  · intro o now st f text ap p ra tt sr dur tid au ci e hr hex
    unfold add_metadata_entry_clone_fallible add_metadata_entry_clone_body
    simp [hex, hr, Except.bind, Bind.bind]
  · intro o base st p m v e hm
    unfold create_output_directory_fallible
    rw [hm]
  · intro now st f text ap p m v tt sr dur tid
    unfold add_metadata_entry_fallible add_metadata_entry_body
      add_metadata_entry FSOracle.clean
    by_cases hex : (st.ledgers.lookup f).isSome
    · simp only [hex, if_true]
      simp [Except.bind, Bind.bind, pure, Except.pure]
    · have hnone : st.ledgers.lookup f = none :=
        Option.not_isSome_iff_eq_none.mp hex
      simp only [hex, Bool.false_eq_true, if_false]
      simp [nonHeaderCount, hnone, Except.bind, Bind.bind, pure, Except.pure]
  · intro now st f text ap p ra tt sr dur tid au ci
    unfold add_metadata_entry_clone_fallible add_metadata_entry_clone_body
      add_metadata_entry_clone FSOracle.clean
    by_cases hex : (st.ledgers.lookup f).isSome
    · simp only [hex, if_true]
      simp [Except.bind, Bind.bind, pure, Except.pure]
    · have hnone : st.ledgers.lookup f = none :=
        Option.not_isSome_iff_eq_none.mp hex
      simp only [hex, Bool.false_eq_true, if_false]
      simp [nonHeaderCount, hnone, Except.bind, Bind.bind, pure, Except.pure]
  · intro o env st text_id text p m v hm
    exact synthesize_single_text_fallible_result o env st text_id text p m v hm
  · intro o env st text_id text p ra v model? hm
    exact clone_single_text_fallible_result o env st text_id text p ra v
      model? hm

set_option maxRecDepth 10000 in
/-- C8, witness: the theorem applied to concrete oracles — a failing append
for both schemas, a failing read on an existing ledger, a failing mkdir, and
the two single-item operations run under the append-failing oracle. -/
theorem C8_ledger_io_error_handling_witness :
    add_metadata_entry_fallible
      { mkdir_raises := none, read_raises := none,
        append_raises := some "disk full", header_write_raises := none }
      "2026-10-12 00:00:00" DMState.empty "f.tsv" "hi" "a.wav" "gtts" "m" "v"
      "synthesize" 22050 none (some "1") = (false, DMState.empty) ∧
    add_metadata_entry_fallible
      { mkdir_raises := none, read_raises := some "read error",
        append_raises := none, header_write_raises := none }
      "2026-10-12 00:00:00" dupState "out/gtts/m/v/metadata.tsv" "hi" "a.wav"
      "gtts" "m" "v" "synthesize" 22050 none (some "1") = (false, dupState) ∧
    add_metadata_entry_clone_fallible
      { mkdir_raises := none, read_raises := none,
        append_raises := some "disk full", header_write_raises := none }
      "2026-10-12 00:00:00" DMState.empty "f.tsv" "hi" "a.wav" "gtts"
      "ref.wav" "clone" 22050 none (some "1") (some "http://a") (some "c1") =
      (false, DMState.empty) ∧
    add_metadata_entry_clone_fallible
      { mkdir_raises := none, read_raises := some "read error",
        append_raises := none, header_write_raises := none }
      "2026-10-12 00:00:00" dupState "out/gtts/m/v/metadata.tsv" "hi" "a.wav"
      "gtts" "ref.wav" "clone" 22050 none (some "1") (some "http://a")
      (some "c1") = (false, dupState) ∧
    create_output_directory_fallible
      { mkdir_raises := some "Permission denied", read_raises := none,
        append_raises := none, header_write_raises := none }
      "out" DMState.empty "gtts" "m" "v" = .error "Permission denied" ∧
    (synthesize_single_text_fallible
      { mkdir_raises := none, read_raises := none,
        append_raises := some "disk full", header_write_raises := none }
      demoEnv DMState.empty "1" "hi" "gtts" "m" "v").1 =
      (synthesize_single_text demoEnv DMState.empty "1" "hi" "gtts" "m" "v").1 ∧
    (clone_single_text_fallible
      { mkdir_raises := none, read_raises := none,
        append_raises := some "disk full", header_write_raises := none }
      demoEnv DMState.empty "1" "hi" "gtts" "ref.wav" "v" (some "m")).1 =
      (clone_single_text demoEnv DMState.empty "1" "hi" "gtts" "ref.wav" "v"
        (some "m")).1 :=
  ⟨C8_ledger_io_error_handling.1 _ "2026-10-12 00:00:00" DMState.empty "f.tsv"
      "hi" "a.wav" "gtts" "m" "v" "synthesize" 22050 none (some "1")
      "disk full" rfl,
    C8_ledger_io_error_handling.2.1 _ "2026-10-12 00:00:00" dupState
      "out/gtts/m/v/metadata.tsv" "hi" "a.wav" "gtts" "m" "v" "synthesize"
      22050 none (some "1") "read error" rfl (by decide),
    C8_ledger_io_error_handling.2.2.1 _ "2026-10-12 00:00:00" DMState.empty
      "f.tsv" "hi" "a.wav" "gtts" "ref.wav" "clone" 22050 none (some "1")
      (some "http://a") (some "c1") "disk full" rfl,
    C8_ledger_io_error_handling.2.2.2.1 _ "2026-10-12 00:00:00" dupState
      "out/gtts/m/v/metadata.tsv" "hi" "a.wav" "gtts" "ref.wav" "clone" 22050
      none (some "1") (some "http://a") (some "c1") "read error" rfl
      (by decide),
    C8_ledger_io_error_handling.2.2.2.2.1 _ "out" DMState.empty "gtts" "m" "v"
      "Permission denied" rfl,
    (C8_ledger_io_error_handling.2.2.2.2.2.2.2.1 _ demoEnv DMState.empty "1"
      "hi" "gtts" "m" "v" rfl).1,
    (C8_ledger_io_error_handling.2.2.2.2.2.2.2.2 _ demoEnv DMState.empty "1"
      "hi" "gtts" "ref.wav" "v" (some "m") rfl).1⟩

set_option maxRecDepth 2000 in
/-- C9: filename sanitization first removes the filesystem-hostile
characters, then collapses each whitespace run of the stripped result to one
underscore, and truncates to 47 characters plus `...` only beyond the
50-character limit — `"Hello/World:Test"` yields `"HelloWorldTest"`,
`"< >"` (whitespace exposed by removing hostile characters) collapses away
entirely, 50 characters pass untruncated while 60 are cut, and no output
ever contains a hostile or whitespace character or exceeds 50 characters. -/
theorem C9_sanitize_filename :
    _sanitize_filename "Hello/World:Test" = "HelloWorldTest" ∧
    _sanitize_filename "Hello World" = "Hello_World" ∧
    _sanitize_filename "a  b" = "a_b" ∧
    _sanitize_filename "< >" = "" ∧
    _sanitize_filename (String.mk (List.replicate 50 'a')) =
      String.mk (List.replicate 50 'a') ∧
    _sanitize_filename (String.mk (List.replicate 60 'a')) =
      String.mk (List.replicate 47 'a') ++ "..." ∧
    (∀ (t : String) (c : Char), c ∈ (_sanitize_filename t).data →
      hostileChar c = false ∧ pyWhitespace c = false) ∧
    (∀ t : String, (_sanitize_filename t).length ≤ 50) :=
  ⟨by decide, by decide, by decide, by decide, by decide, by decide,
    sanitize_no_hostile_no_ws, sanitize_length_le⟩

/-- C9, witness: the two universally quantified parts applied to the
concrete input `"Hi there"` and its first output character. -/
theorem C9_sanitize_filename_witness :
    (hostileChar 'H' = false ∧ pyWhitespace 'H' = false) ∧
    (_sanitize_filename "Hi there").length ≤ 50 :=
  ⟨C9_sanitize_filename.2.2.2.2.2.2.1 "Hi there" 'H' (by decide),
    C9_sanitize_filename.2.2.2.2.2.2.2 "Hi there"⟩

/-- C10: on the duplicate-skip path the two single-item operations treat the
ledger asymmetrically — `synthesize_single_text` appends exactly one new row
(with duration 0) to the existing ledger before returning the skipped
outcome, so repeated identical synthesize runs grow the ledger by one row per
skip while writing no audio, whereas `clone_single_text` returns the skipped
outcome leaving the on-disk state completely unchanged. -/
theorem C10_skip_ledger_asymmetry :
    (∀ (env : GenEnv) (st : DMState) (text_id text p m v : String)
        (prov : Provider) (rows : List Row),
      env.providers.lookup p = some prov →
      getLedger st (metadataPathOf env.base_dir p m v) = some rows →
      wavExists st (derivedAudioPath env.base_dir p m v text_id text) = true →
      getLedger (synthesize_single_text env st text_id text p m v).2.1
          (metadataPathOf env.base_dir p m v) =
        some (rows ++
          [[Field.str (fmt3 (rows.length - 1 + 1)), Field.str text_id,
            Field.str text, Field.str (relAudioPath p m v text_id text),
            Field.str p, Field.str m, Field.str v, Field.str "synthesize",
            Field.str (toString prov.sample_rate), Field.str "vi",
            Field.rat 0, Field.str env.now]])) ∧
    (∀ (env : GenEnv) (st : DMState) (text_id text p ra v : String)
        (model? : Option String) (prov : Provider) (rows : List Row),
      env.providers.lookup p = some prov →
      getLedger st
        (metadataPathOf env.base_dir p (cloneModelDefault model? ra) v) =
          some rows →
      wavExists st (derivedAudioPath env.base_dir p
        (cloneModelDefault model? ra) v text_id text) = true →
      (clone_single_text env st text_id text p ra v model?).2.1 = st) := by
  constructor
  · intro env st text_id text p m v prov rows hp hrows hx
    have hsome : (st.ledgers.lookup (metadataPathOf env.base_dir p m v)).isSome := by
      unfold getLedger at hrows
      rw [hrows]
      rfl
    have hst1 : (create_output_directory env.base_dir st p m v).2.2 = st := by
      show (initialize_metadata_file st (metadataPathOf env.base_dir p m v)
        synthesizeColumns).2 = st
      exact ledgers_initialize_exists st _ _ hsome
    unfold synthesize_single_text
    rw [hp]
    have hx1 : wavExists (create_output_directory env.base_dir st p m v).2.2
        (pathJoin (create_output_directory env.base_dir st p m v).1
          (audioFileName text_id text)) = true := by
      rw [hst1]
      exact hx
    simp only [hx1, if_true]
    show getLedger (add_metadata_entry env.now
        (create_output_directory env.base_dir st p m v).2.2
        (metadataPathOf env.base_dir p m v) text
        (relAudioPath p m v text_id text) p m v "synthesize" prov.sample_rate
        (some 0) (some text_id)).2 (metadataPathOf env.base_dir p m v) = _
    rw [hst1]
    show getLedger (appendRowToFile st (metadataPathOf env.base_dir p m v) _)
        (metadataPathOf env.base_dir p m v) = _
    rw [getLedger_appendRowToFile]
    unfold getLedger at hrows
    simp [hrows, getLedger, nonHeaderCount]
  · intro env st text_id text p ra v model? prov rows hp hrows hx
    have hsome : (st.ledgers.lookup
        (metadataPathOf env.base_dir p (cloneModelDefault model? ra) v)).isSome := by
      unfold getLedger at hrows
      rw [hrows]
      rfl
    have hst1 : (create_output_directory env.base_dir st p
        (cloneModelDefault model? ra) v).2.2 = st := by
      show (initialize_metadata_file st
        (metadataPathOf env.base_dir p (cloneModelDefault model? ra) v)
        synthesizeColumns).2 = st
      exact ledgers_initialize_exists st _ _ hsome
    unfold clone_single_text
    rw [hp]
    have hx1 : wavExists (create_output_directory env.base_dir st p
        (cloneModelDefault model? ra) v).2.2
        (pathJoin (create_output_directory env.base_dir st p
          (cloneModelDefault model? ra) v).1 (audioFileName text_id text)) = true := by
      rw [hst1]
      exact hx
    simp only [hx1, if_true]
    exact hst1

set_option maxRecDepth 10000 in
/-- C10, witness: the asymmetry applied to the populated state — the
synthesize skip extends the ledger by one row, the clone skip leaves the
state untouched. -/
theorem C10_skip_ledger_asymmetry_witness :
    getLedger (synthesize_single_text demoEnv dupState "1" "hi" "gtts" "m" "v").2.1
        (metadataPathOf demoEnv.base_dir "gtts" "m" "v") =
      some ([synthesizeColumns.map Field.str] ++
        [[Field.str (fmt3 ([synthesizeColumns.map Field.str].length - 1 + 1)),
          Field.str "1", Field.str "hi",
          Field.str (relAudioPath "gtts" "m" "v" "1" "hi"),
          Field.str "gtts", Field.str "m", Field.str "v",
          Field.str "synthesize", Field.str (toString okProvider.sample_rate),
          Field.str "vi", Field.rat 0, Field.str demoEnv.now]]) ∧
    (clone_single_text demoEnv dupState "1" "hi" "gtts" "ref.wav" "v"
      (some "m")).2.1 = dupState :=
  ⟨C10_skip_ledger_asymmetry.1 demoEnv dupState "1" "hi" "gtts" "m" "v"
      okProvider [synthesizeColumns.map Field.str] rfl (by decide) (by decide),
    C10_skip_ledger_asymmetry.2 demoEnv dupState "1" "hi" "gtts" "ref.wav" "v"
      (some "m") okProvider [synthesizeColumns.map Field.str] rfl (by decide)
      (by decide)⟩

end SpeechSynth
